import Mathlib

/-! Blockchain Security 2Go on PSoC 6: checksums and the I2C driver layer.

A shallow embedding of `src/bs2go/crc/crc.c`, `src/bs2go/psoc6-i2c/psoc6-i2c.c`
and `src/bs2go/se_interface.c`.

Conventions
* `uint8_t`, `uint16_t`, `uint32_t` values are natural numbers; every
  assignment to such a variable reduces modulo `2^8`, `2^16`, `2^32`.
* a byte buffer `(uint8_t *data, size_t data_len)` is a `List Byte`, the
  length of the list being `data_len`.
-/

namespace Bs2go

/-- One `uint8_t` of a data buffer. -/
abbrev Byte := Fin 256

/-! ## `crc.c` -/

/-- The `j` loop of `crc16_ccitt_x25` (lines 46-56), run `n` times on `crc`. -/
def crc16_ccitt_x25_bits : Nat → Nat → Nat
  | 0, crc => crc
  | n + 1, crc =>
    if crc &&& 1 ≠ 0 then
      crc16_ccitt_x25_bits n (((crc >>> 1) ^^^ 0x8408) % 2 ^ 16)
    else
      crc16_ccitt_x25_bits n ((crc >>> 1) % 2 ^ 16)

/-- The body of the `i` loop of `crc16_ccitt_x25` (lines 44-56). -/
def crc16_ccitt_x25_byte (crc : Nat) (b : Byte) : Nat :=
  crc16_ccitt_x25_bits 8 ((crc ^^^ b.val) % 2 ^ 16)

/-- The function `crc16_ccitt_x25` of `crc.c`. -/
def crc16_ccitt_x25 (data : List Byte) : Nat :=
  (data.foldl crc16_ccitt_x25_byte 0xffff ^^^ 0xffff) % 2 ^ 16

/-- The `j` loop of `crc16_mcrf4xx` (lines 76-86), run `n` times on `crc`. -/
def crc16_mcrf4xx_bits : Nat → Nat → Nat
  | 0, crc => crc
  | n + 1, crc =>
    if crc &&& 1 ≠ 0 then
      crc16_mcrf4xx_bits n (((crc >>> 1) ^^^ 0x8408) % 2 ^ 16)
    else
      crc16_mcrf4xx_bits n ((crc >>> 1) % 2 ^ 16)

/-- The body of the `i` loop of `crc16_mcrf4xx` (lines 74-86). -/
def crc16_mcrf4xx_byte (crc : Nat) (b : Byte) : Nat :=
  crc16_mcrf4xx_bits 8 ((crc ^^^ b.val) % 2 ^ 16)

/-- The function `crc16_mcrf4xx` of `crc.c`. -/
def crc16_mcrf4xx (data : List Byte) : Nat :=
  data.foldl crc16_mcrf4xx_byte 0xffff

/-- The `j` loop of `crc16_t1gd` (lines 107-115), run `n` times on the
16-bit register `crc` and the 8-bit remaining byte `b`; the register is a
`uint16_t`, so the result of `crc ^= 0x10810` is reduced modulo `2^16`. -/
def crc16_t1gd_bits : Nat → Nat → Nat → Nat
  | 0, crc, _ => crc
  | n + 1, crc, b =>
    let crc1 := if (crc ^^^ b) &&& 0x01 ≠ 0 then (crc ^^^ 0x10810) % 2 ^ 16 else crc
    crc16_t1gd_bits n ((crc1 >>> 1) % 2 ^ 16) ((b >>> 1) % 2 ^ 8)

/-- The body of the `i` loop of `crc16_t1gd` (lines 106-115). -/
def crc16_t1gd_byte (crc : Nat) (b : Byte) : Nat :=
  crc16_t1gd_bits 8 crc b.val

/-- The function `crc16_t1gd` of `crc.c`. -/
def crc16_t1gd (data : List Byte) : Nat :=
  data.foldl crc16_t1gd_byte 0xffff

/-- The inner loop of `crc16_t1gd` read with the full 17-bit constant: `n`
times, if the low bit of the register differs from the low bit of the
remaining byte, XOR the register with `0x10810`, bit 16 included, which the
shift then moves to bit 15; then shift the register and the remaining byte
right by one bit.  This reading needs a register of 17 bits; the `uint16_t`
register of `crc.c` has 16. -/
def crc16_t1gd_reference17_bits : Nat → Nat → Nat → Nat
  | 0, register, _ => register
  | n + 1, register, b =>
    let register1 := if register % 2 ≠ b % 2 then register ^^^ 0x10810 else register
    crc16_t1gd_reference17_bits n (register1 >>> 1) (b >>> 1)

/-- The reading of `crc16_t1gd` with the full 17-bit constant: register
initialised to `0xFFFF`, the inner loop for each byte in order, no final XOR. -/
def crc16_t1gd_reference17 (data : List Byte) : Nat :=
  data.foldl (fun register b => crc16_t1gd_reference17_bits 8 register b.val) 0xffff

/-- The inner loop of the reference for `crc16_t1gd` on a 16-bit register: `n`
times, if the low bit of the register differs from the low bit of the
remaining byte, XOR the register with the 16 bits `0x0810` that the register
takes of the constant `0x10810`; then halve the register and the remaining
byte. -/
def crc16_t1gd_reference16_bits : Nat → Nat → Nat → Nat
  | 0, register, _ => register
  | n + 1, register, b =>
    if register % 2 ≠ b % 2 then
      crc16_t1gd_reference16_bits n ((register ^^^ 0x0810) / 2) (b / 2)
    else
      crc16_t1gd_reference16_bits n (register / 2) (b / 2)

/-- The reference for `crc16_t1gd` on a 16-bit register: register initialised
to `0xFFFF`, the inner loop for each byte in order, no final XOR. -/
def crc16_t1gd_reference16 (data : List Byte) : Nat :=
  data.foldl (fun register b => crc16_t1gd_reference16_bits 8 register b.val) 0xffff

/-- The low byte `c mod 256` of a 16-bit checksum, as a byte of a frame. -/
def lowByte (c : Nat) : Byte := ⟨c % 256, Nat.mod_lt _ (by decide)⟩

/-- The high byte `c div 256` of a 16-bit checksum, as a byte of a frame. -/
def highByte (c : Nat) : Byte := ⟨c / 256 % 256, Nat.mod_lt _ (by decide)⟩

/-- The function `lrc8` of `crc.c`. -/
def lrc8 (data : List Byte) : Nat :=
  data.foldl (fun lrc b => (lrc ^^^ b.val) % 2 ^ 8) 0x00

/-! ## Constants of headers that are not part of the sources -/

/-- The constants and the error-code constructor that `psoc6-i2c.c` and
`se_interface.c` take from `bs2go/error/error.h`, `bs2go/protocol/protocol.h`,
`bs2go/t1prime/ifx/t1prime.h` and the board support package (`cyhal.h`,
`cybsp.h`).  These headers are not among the sources, so their values are
parameters of every definition below. -/
structure Headers where
  /-- `IFX_ERROR (module, function, reason)` -/
  IFX_ERROR : Nat → Nat → Nat → Int
  SUCCESS : Int
  PROTOCOL_GETPROPERTY : Nat
  PROTOCOL_TRANSMIT : Nat
  PROTOCOL_RECEIVE : Nat
  PROTOCOLLAYER_INITIALIZE : Nat
  INVALID_PROTOCOLSTACK : Nat
  OUT_OF_MEMORY : Nat
  ILLEGAL_ARGUMENT : Nat
  PROTOCOL_GETPROPERTY_SUCCESS : Int
  PROTOCOL_SETPROPERTY_SUCCESS : Int
  PROTOCOL_TRANSMIT_SUCCESS : Int
  PROTOCOL_RECEIVE_SUCCESS : Int
  PROTOCOL_ACTIVATE_SUCCESS : Int
  PROTOCOLLAYER_INITIALIZE_SUCCESS : Int
  /-- `CY_RSLT_SUCCESS`, a `cy_rslt_t` (`uint32_t`) -/
  CY_RSLT_SUCCESS : Nat
  /-- `I2C_FREQUENCY`, the argument of `i2c_set_clock_frequency` in `psoc6_i2c_initialize` -/
  I2C_FREQUENCY : Nat
  /-- `I2C_ADDRESS`, the argument of `i2c_set_slave_address` in `se_interface_init` -/
  I2C_ADDRESS : Nat

/-- `LIBPSOC6I2C` of `bs2go/psoc6-i2c/ifx/psoc6-i2c.h`. -/
def LIBPSOC6I2C : Nat := 0x35

/-- `PSOC6_I2C_PROTOCOLLAYER_ID` of `bs2go/psoc6-i2c/psoc6-i2c.h`. -/
def PSOC6_I2C_PROTOCOLLAYER_ID : Nat := 0x34

/-- `I2C_DEFAULT_SLAVE_ADDRESS`, `((uint8_t)0x50)`. -/
def I2C_DEFAULT_SLAVE_ADDRESS : Nat := 0x50 % 2 ^ 8

/-- `I2C_DEFAULT_CLOCK_FREQUENCY`, `((uint32_t)400000)`. -/
def I2C_DEFAULT_CLOCK_FREQUENCY : Nat := 400000 % 2 ^ 32

/-- Conversion of a `uint32_t` value to `int` (two's complement, 32 bits), as
in `return result;` of a function returning `int`. -/
def toInt32 (n : Nat) : Int :=
  if n % 2 ^ 32 < 2 ^ 31 then ((n % 2 ^ 32 : Nat) : Int) else ((n % 2 ^ 32 : Nat) : Int) - 2 ^ 32

/-- Conversion of an `int` to `uint16_t`, as in `return status;` of
`se_interface_init`. -/
def toUInt16 (i : Int) : Nat := (i % 2 ^ 16).toNat

/-- One concrete choice of the header constants: success codes are `0`, an
error code has the sign bit set and carries module, function and reason in
bit fields. -/
def exampleHeaders : Headers where
  IFX_ERROR := fun m f r =>
    ((m % 2 ^ 7 * 2 ^ 24 + f % 2 ^ 8 * 2 ^ 16 + r % 2 ^ 16 : Nat) : Int) - 2 ^ 31
  SUCCESS := 0
  PROTOCOL_GETPROPERTY := 0x05
  PROTOCOL_TRANSMIT := 0x02
  PROTOCOL_RECEIVE := 0x03
  PROTOCOLLAYER_INITIALIZE := 0x06
  INVALID_PROTOCOLSTACK := 0x01
  OUT_OF_MEMORY := 0xfffe
  ILLEGAL_ARGUMENT := 0xfffd
  PROTOCOL_GETPROPERTY_SUCCESS := 0
  PROTOCOL_SETPROPERTY_SUCCESS := 0
  PROTOCOL_TRANSMIT_SUCCESS := 0
  PROTOCOL_RECEIVE_SUCCESS := 0
  PROTOCOL_ACTIVATE_SUCCESS := 0
  PROTOCOLLAYER_INITIALIZE_SUCCESS := 0
  CY_RSLT_SUCCESS := 0
  I2C_FREQUENCY := 400000
  I2C_ADDRESS := 0x50

/-! ## Data model of the driver layer -/

/-- `struct ProtocolState` of `psoc6-i2c.h`. -/
structure ProtocolState where
  /-- `uint16_t slave_address` -/
  slave_address : Nat
  /-- `uint32_t clock_frequency` -/
  clock_frequency : Nat
  deriving DecidableEq, Repr

/-- One `Protocol` object, as far as the driver layer uses it: its
`_layer_id` and its `_properties` pointer (`none` is `NULL`, `some s` a heap
block holding `s`).  The `_base` pointer is represented by position: a
non-null `Protocol *self` is a layer `self` together with the list `base` of
the layers reachable through `_base`, nearest first; `self->_base == NULL`
is `base = []`.  The function pointers of the object are not represented. -/
structure Protocol where
  _layer_id : Nat
  _properties : Option ProtocolState
  deriving DecidableEq, Repr

/-- The two `static Protocol` objects of `se_interface.c`. -/
inductive Object where
  | protocol
  | driver
  deriving DecidableEq, Repr

/-- Calls to the C library, the HAL and the absent parts of the protocol
library, in the order in which they are made. -/
inductive Event where
  /-- `malloc (sizeof (ProtocolState))`, with whether it returned non-`NULL` -/
  | malloc_properties (ok : Bool)
  /-- `free (self->_properties)` -/
  | free_properties
  /-- `malloc (expected_len)`, with whether it returned non-`NULL` -/
  | malloc_response (expected_len : Nat) (ok : Bool)
  /-- `free (*response)` in `psoc6_i2c_receive` -/
  | free_response
  | cyhal_i2c_init
  /-- `cyhal_i2c_configure` with the `frequencyhal_hz` of the configuration -/
  | cyhal_i2c_configure (frequencyhal_hz : Nat)
  | cyhal_i2c_free
  /-- `cyhal_i2c_master_write (&mI2C, dev_addr, data, size, 0, true)`; `size` is a
  `uint16_t` parameter of the HAL (`cyhal_i2c.h`, not among the sources), and
  `data` stands for the `size` bytes the HAL is asked to send -/
  | cyhal_i2c_master_write (dev_addr : Nat) (data : List Byte)
  /-- `cyhal_i2c_master_read (&mI2C, dev_addr, data, size, 0, true)`; `size` is a
  `uint16_t` parameter of the HAL (`cyhal_i2c.h`, not among the sources) -/
  | cyhal_i2c_master_read (dev_addr : Nat) (size : Nat)
  /-- `t1prime_initialize (&protocol, &driver)` -/
  | t1prime_initialize
  /-- `protocol_activate (&protocol, &response, &response_len)` -/
  | protocol_activate
  /-- `protocol_destroy` called on one of the objects of `se_interface.c` -/
  | protocol_destroy (target : Object)
  /-- `free (response)` at the end of `se_interface_init` -/
  | free_activate_response
  deriving DecidableEq, Repr

/-- The file-scope variables of `psoc6-i2c.c` and the calls made so far. -/
structure World where
  /-- `static uint16_t I2C_SLAVE_ADDR` -/
  I2C_SLAVE_ADDR : Nat
  /-- `static uint32_t I2C_FREQ` -/
  I2C_FREQ : Nat
  /-- `cy_rslt_t result` -/
  result : Nat
  trace : List Event
  deriving DecidableEq, Repr

/-- Append one call to the trace. -/
def World.log (w : World) (e : Event) : World :=
  { w with trace := w.trace ++ [e] }

/-- Ways in which a call does not return to its caller. -/
inductive Fault where
  /-- an uninitialised pointer is dereferenced -/
  | undefined_behaviour
  /-- `CY_ASSERT (0)` halted the processor -/
  | halted
  deriving DecidableEq, Repr

/-! ## `psoc6-i2c.c` -/

/-- What `i2c_get_protocol_state` leaves behind: the returned status, the
trace, the chain after the call, and the pointer stored into
`*protocol_state_buffer`: `some 0` points at the properties block of `self`,
`some (n + 1)` at that of `base[n]`, `none` means the buffer was not written. -/
structure StateLookup where
  status : Int
  world : World
  self : Protocol
  base : List Protocol
  protocol_state_buffer : Option Nat
  deriving DecidableEq, Repr

/-- The function `i2c_get_protocol_state` of `psoc6-i2c.c`; `malloc_ok` says
whether the `malloc` of line 123, if reached, returns a block. -/
def i2c_get_protocol_state (k : Headers) (malloc_ok : Bool) (w : World) :
    Protocol → List Protocol → StateLookup
  | self, base =>
    if self._layer_id ≠ PSOC6_I2C_PROTOCOLLAYER_ID then
      match base with
      | [] =>
        { status := k.IFX_ERROR LIBPSOC6I2C k.PROTOCOL_GETPROPERTY k.INVALID_PROTOCOLSTACK
          world := w, self := self, base := [], protocol_state_buffer := none }
      | b :: bs =>
        let r := i2c_get_protocol_state k malloc_ok w b bs
        { status := r.status, world := r.world, self := self, base := r.self :: r.base
          protocol_state_buffer := r.protocol_state_buffer.map (· + 1) }
    else
      match self._properties with
      | none =>
        if malloc_ok then
          { status := k.PROTOCOL_GETPROPERTY_SUCCESS
            world := w.log (Event.malloc_properties true)
            self :=
              { self with
                _properties := some
                  { slave_address := I2C_DEFAULT_SLAVE_ADDRESS % 2 ^ 16
                    clock_frequency := I2C_DEFAULT_CLOCK_FREQUENCY % 2 ^ 32 } }
            base := base, protocol_state_buffer := some 0 }
        else
          { status := k.IFX_ERROR LIBPSOC6I2C k.PROTOCOL_GETPROPERTY k.OUT_OF_MEMORY
            world := w.log (Event.malloc_properties false)
            self := self, base := base, protocol_state_buffer := none }
      | some _ =>
        { status := k.PROTOCOL_GETPROPERTY_SUCCESS, world := w, self := self, base := base
          protocol_state_buffer := some 0 }

/-- Reading through a `ProtocolState *`: the block that the pointer at chain
position `ptr` designates (`none` if there is no such block). -/
def readState : Protocol → List Protocol → Nat → Option ProtocolState
  | self, _, 0 => self._properties
  | _, [], _ + 1 => none
  | _, b :: bs, n + 1 => readState b bs n

/-- Writing through a `ProtocolState *`: the chain after `f` has been applied
to the block that the pointer at chain position `ptr` designates. -/
def writeState (f : ProtocolState → ProtocolState) :
    Protocol → List Protocol → Nat → Protocol × List Protocol
  | self, base, 0 => ({ self with _properties := self._properties.map f }, base)
  | self, [], _ + 1 => (self, [])
  | self, b :: bs, n + 1 => (self, (writeState f b bs n).1 :: (writeState f b bs n).2)

/-- What a property getter leaves behind: status, trace, chain, and the value
stored into the caller's buffer (`none`: the buffer was not written). -/
structure GetResult where
  status : Int
  world : World
  self : Protocol
  base : List Protocol
  value : Option Nat
  deriving DecidableEq, Repr

/-- What a property setter leaves behind: status, globals and trace, chain. -/
structure SetResult where
  status : Int
  world : World
  self : Protocol
  base : List Protocol
  deriving DecidableEq, Repr

/-- The function `i2c_get_clock_frequency` of `psoc6-i2c.c`, for a non-null
`self` and a non-null `frequency_buffer`. -/
def i2c_get_clock_frequency (k : Headers) (malloc_ok : Bool) (w : World)
    (self : Protocol) (base : List Protocol) : Except Fault GetResult :=
  let r := i2c_get_protocol_state k malloc_ok w self base
  if r.status ≠ k.PROTOCOL_GETPROPERTY_SUCCESS then
    .ok { status := r.status, world := r.world, self := r.self, base := r.base, value := none }
  else
    match r.protocol_state_buffer.bind (readState r.self r.base) with
    | none => .error Fault.undefined_behaviour
    | some protocol_state =>
      .ok { status := k.PROTOCOL_GETPROPERTY_SUCCESS, world := r.world, self := r.self
            base := r.base, value := some (protocol_state.clock_frequency % 2 ^ 32) }

/-- The function `i2c_set_clock_frequency` of `psoc6-i2c.c`, for a non-null
`self`. -/
def i2c_set_clock_frequency (k : Headers) (malloc_ok : Bool) (w : World)
    (self : Protocol) (base : List Protocol) (frequency : Nat) : Except Fault SetResult :=
  let r := i2c_get_protocol_state k malloc_ok w self base
  if r.status ≠ k.PROTOCOL_GETPROPERTY_SUCCESS then
    .ok { status := r.status, world := r.world, self := r.self, base := r.base }
  else
    match r.protocol_state_buffer with
    | none => .error Fault.undefined_behaviour
    | some ptr =>
      match readState r.self r.base ptr with
      | none => .error Fault.undefined_behaviour
      | some _ =>
        let chain :=
          writeState (fun s => { s with clock_frequency := frequency % 2 ^ 32 }) r.self r.base ptr
        .ok { status := k.PROTOCOL_SETPROPERTY_SUCCESS
              world := { r.world with I2C_FREQ := frequency % 2 ^ 32 }
              self := chain.1, base := chain.2 }

/-- The function `i2c_get_slave_address` of `psoc6-i2c.c`, for a non-null
`self` and a non-null `address_buffer`. -/
def i2c_get_slave_address (k : Headers) (malloc_ok : Bool) (w : World)
    (self : Protocol) (base : List Protocol) : Except Fault GetResult :=
  let r := i2c_get_protocol_state k malloc_ok w self base
  if r.status ≠ k.PROTOCOL_GETPROPERTY_SUCCESS then
    .ok { status := r.status, world := r.world, self := r.self, base := r.base, value := none }
  else
    match r.protocol_state_buffer.bind (readState r.self r.base) with
    | none => .error Fault.undefined_behaviour
    | some protocol_state =>
      .ok { status := k.PROTOCOL_GETPROPERTY_SUCCESS, world := r.world, self := r.self
            base := r.base, value := some (protocol_state.slave_address % 2 ^ 16) }

/-- What `i2c_set_slave_address` leaves behind; `chain` is the chain `self`
points to after the call, `none` when `self` is `NULL`. -/
structure SetAddressResult where
  status : Int
  world : World
  chain : Option (Protocol × List Protocol)
  deriving DecidableEq, Repr

/-- The function `i2c_set_slave_address` of `psoc6-i2c.c`; `self = none` is the
`NULL` pointer. -/
def i2c_set_slave_address (k : Headers) (malloc_ok : Bool) (w : World)
    (self : Option (Protocol × List Protocol)) (address : Nat) :
    Except Fault SetAddressResult :=
  match self with
  | none =>
    .ok { status := k.IFX_ERROR LIBPSOC6I2C k.PROTOCOLLAYER_INITIALIZE k.ILLEGAL_ARGUMENT
          world := w, chain := none }
  | some (self, base) =>
    let r := i2c_get_protocol_state k malloc_ok w self base
    if r.status ≠ k.PROTOCOL_GETPROPERTY_SUCCESS then
      .ok { status := r.status, world := r.world, chain := some (r.self, r.base) }
    else
      match r.protocol_state_buffer with
      | none => .error Fault.undefined_behaviour
      | some ptr =>
        match readState r.self r.base ptr with
        | none => .error Fault.undefined_behaviour
        | some _ =>
          .ok { status := k.PROTOCOL_SETPROPERTY_SUCCESS
                world := { r.world with I2C_SLAVE_ADDR := address % 2 ^ 16 }
                chain := some
                  (writeState (fun s => { s with slave_address := address % 2 ^ 16 })
                    r.self r.base ptr) }

/-- The function `psoc6_i2c_destroy` of `psoc6-i2c.c`; `self = none` is the
`NULL` pointer, and the result carries the object `self` points to after the
call. -/
def psoc6_i2c_destroy (w : World) (self : Option Protocol) : World × Option Protocol :=
  match self with
  | none => (w, none)
  | some self =>
    match self._properties with
    | some _ =>
      (((w.log Event.free_properties).log Event.cyhal_i2c_free),
        some { self with _properties := none })
    | none => (w.log Event.cyhal_i2c_free, some self)

/-- A heap buffer of `uint8_t`, one entry per allocated byte: `some b` for a
byte that has been written, `none` for a byte that has not been written since
`malloc` (its value is indeterminate). -/
abbrev HeapBuffer := List (Option Byte)

/-- The function `psoc6_i2c_transmit` of `psoc6-i2c.c`.  `self` and `data` are
`none` for `NULL`; `rslt` is what `cyhal_i2c_master_write`, if called, returns.
The `size_t data_len` is converted to the `uint16_t size` of the HAL call. -/
def psoc6_i2c_transmit (k : Headers) (rslt : Nat) (w : World)
    (self : Option Protocol) (data : Option (List Byte)) (data_len : Nat) : Int × World :=
  match self, data with
  | some _, some data =>
    if data_len = 0 ∨ data_len > 0xffffffff then
      (k.IFX_ERROR LIBPSOC6I2C k.PROTOCOL_TRANSMIT k.ILLEGAL_ARGUMENT, w)
    else
      let w1 : World :=
        { (w.log (Event.cyhal_i2c_master_write w.I2C_SLAVE_ADDR
            (data.take (data_len % 2 ^ 16)))) with
          result := rslt % 2 ^ 32 }
      if w1.result ≠ k.CY_RSLT_SUCCESS then
        (toInt32 w1.result, w1)
      else
        (k.PROTOCOL_TRANSMIT_SUCCESS, w1)
  | _, _ => (k.IFX_ERROR LIBPSOC6I2C k.PROTOCOL_TRANSMIT k.ILLEGAL_ARGUMENT, w)

/-- What `psoc6_i2c_receive` leaves behind.  `response` is `none` when the
argument `response` is `NULL`, else `some p` with `p` the pointer held in
`*response` after the call (`none` for `NULL`, `some buf` for the heap buffer
`buf`); `response_len` likewise is `none` when the argument is `NULL`,
else the value held in `*response_len`. -/
structure ReceiveResult where
  status : Int
  world : World
  response : Option (Option HeapBuffer)
  response_len : Option Nat
  deriving DecidableEq, Repr

/-- The function `psoc6_i2c_receive` of `psoc6-i2c.c`.  `malloc_ok` says whether
the `malloc` of line 252, if reached, returns a block; `rslt` is what
`cyhal_i2c_master_read`, if called, returns and `rx` the bytes the slave has to
deliver.  The `size_t expected_len` is converted to the `uint16_t size` of the
HAL call, which stores at most `size` bytes at the start of the buffer; the
bytes of the buffer it does not store stay unwritten. -/
def psoc6_i2c_receive (k : Headers) (malloc_ok : Bool) (rslt : Nat) (rx : List Byte)
    (w : World) (self : Option Protocol) (expected_len : Nat)
    (response : Option (Option HeapBuffer)) (response_len : Option Nat) : ReceiveResult :=
  match self, response, response_len with
  | some _, some _, some len =>
    if expected_len = 0 ∨ expected_len > 0xffffffff then
      { status := k.IFX_ERROR LIBPSOC6I2C k.PROTOCOL_RECEIVE k.ILLEGAL_ARGUMENT
        world := w, response := response, response_len := response_len }
    else if malloc_ok = false then
      { status := k.IFX_ERROR LIBPSOC6I2C k.PROTOCOL_RECEIVE k.OUT_OF_MEMORY
        world := w.log (Event.malloc_response expected_len false)
        response := some none, response_len := some len }
    else
      let size := expected_len % 2 ^ 16
      let buffer : HeapBuffer :=
        ((rx.take size).map some ++ List.replicate expected_len none).take expected_len
      let w1 : World :=
        { ((w.log (Event.malloc_response expected_len true)).log
            (Event.cyhal_i2c_master_read w.I2C_SLAVE_ADDR size)) with
          result := rslt % 2 ^ 32 }
      if w1.result ≠ k.CY_RSLT_SUCCESS then
        { status := toInt32 w1.result, world := w1.log Event.free_response
          response := some none, response_len := some 0 }
      else
        { status := k.PROTOCOL_RECEIVE_SUCCESS, world := w1
          response := some (some buffer), response_len := some expected_len }
  | _, _, _ =>
    { status := k.IFX_ERROR LIBPSOC6I2C k.PROTOCOL_RECEIVE k.ILLEGAL_ARGUMENT
      world := w, response := response, response_len := response_len }

/-- What the environment answers during one run of `se_interface_init`. -/
structure InitEnv where
  /-- whether `CY_ASSERT` expands to nothing (`NDEBUG` or `CY_NO_ASSERT`) -/
  NDEBUG : Bool
  /-- status of `protocollayer_initialize (self)` -/
  protocollayer_status : Int
  /-- whether the `malloc` reached from `i2c_set_clock_frequency` returns a block -/
  malloc_ok_frequency : Bool
  /-- whether the `malloc` reached from `i2c_set_slave_address` returns a block -/
  malloc_ok_address : Bool
  /-- result of `cyhal_i2c_init` -/
  cyhal_init_rslt : Nat
  /-- result of `cyhal_i2c_configure` -/
  cyhal_configure_rslt : Nat
  /-- status of `t1prime_initialize (&protocol, &driver)` -/
  t1prime_status : Int
  /-- status of `protocol_activate (&protocol, &response, &response_len)` -/
  activate_status : Int
  deriving DecidableEq, Repr

/-- The function `i2c_init` of `psoc6-i2c.c`.  `CY_ASSERT (0)` halts unless
assertions are compiled out. -/
def i2c_init (k : Headers) (e : InitEnv) (w : World) : Except Fault (Nat × World) :=
  let w1 : World := { (w.log Event.cyhal_i2c_init) with result := e.cyhal_init_rslt % 2 ^ 32 }
  if w1.result ≠ k.CY_RSLT_SUCCESS ∧ e.NDEBUG = false then
    .error Fault.halted
  else
    let w2 : World :=
      { (w1.log (Event.cyhal_i2c_configure w.I2C_FREQ)) with
        result := e.cyhal_configure_rslt % 2 ^ 32 }
    if w2.result ≠ k.CY_RSLT_SUCCESS ∧ e.NDEBUG = false then
      .error Fault.halted
    else
      .ok (w2.result, w2)

/-- Modelled from the spec: `protocollayer_initialize` of the protocol library,
which is not among the sources.  Construction yields a layer without a base
and, properties being allocated on demand and not at construction, without a
properties block; the status it returns is an input, and on failure the
object is left as it was. -/
def protocollayer_initialize (k : Headers) (status : Int) (self : Protocol) : Int × Protocol :=
  if status = k.PROTOCOLLAYER_INITIALIZE_SUCCESS then
    (status, { _layer_id := 0, _properties := none })
  else (status, self)

/-- The function `psoc6_i2c_initialize` of `psoc6-i2c.c`; `self = none` is the
`NULL` pointer.  The result carries the status, the globals and trace, and
the object `self` points to after the call (its `_base` is `NULL`). -/
def psoc6_i2c_initialize (k : Headers) (e : InitEnv) (w : World) (self : Option Protocol) :
    Except Fault (Int × World × Option Protocol) :=
  match self with
  | none =>
    .ok (k.IFX_ERROR LIBPSOC6I2C k.PROTOCOLLAYER_INITIALIZE k.ILLEGAL_ARGUMENT, w, none)
  | some self =>
    let (status, self1) := protocollayer_initialize k e.protocollayer_status self
    if status ≠ k.PROTOCOLLAYER_INITIALIZE_SUCCESS then
      .ok (status, w, some self1)
    else
      let self2 : Protocol := { self1 with _layer_id := PSOC6_I2C_PROTOCOLLAYER_ID }
      match i2c_set_clock_frequency k e.malloc_ok_frequency w self2 [] k.I2C_FREQUENCY with
      | .error f => .error f
      | .ok r =>
        match i2c_init k e r.world with
        | .error f => .error f
        | .ok (result, w1) =>
          if result ≠ k.CY_RSLT_SUCCESS then
            .ok (-1, w1, some r.self)
          else
            .ok (k.PROTOCOLLAYER_INITIALIZE_SUCCESS, w1, some r.self)

/-! ## `se_interface.c` -/

/-- Modelled from the spec: `protocol_destroy` of the protocol library, which
is not among the sources, called on `&driver`.  It releases the properties
the layer owns, through the destructor `psoc6_i2c_destroy` that
`psoc6_i2c_initialize` installed, and then forwards to the base, of which the
driver layer has none. -/
def protocol_destroy (w : World) (driver : Protocol) : World × Protocol :=
  match psoc6_i2c_destroy (w.log (Event.protocol_destroy Object.driver)) (some driver) with
  | (w1, some driver1) => (w1, driver1)
  | (w1, none) => (w1, driver)

/-- What `se_interface_init` leaves behind: the returned `uint16_t`, the
globals and trace, and the `driver` object. -/
structure InitResult where
  returned : Nat
  world : World
  driver : Protocol
  deriving DecidableEq, Repr

/-- The function `se_interface_init` of `se_interface.c`, run on the static
object `driver`.  The calls `t1prime_initialize` and `protocol_activate` go
to code that is not among the sources: their statuses are inputs and the
calls are recorded in the trace; `printf` is not represented. -/
def se_interface_init (k : Headers) (e : InitEnv) (w : World) (driver : Protocol) :
    Except Fault InitResult :=
  match psoc6_i2c_initialize k e w (some driver) with
  | .error f => .error f
  | .ok (status, w1, self1) =>
    let driver1 : Protocol := self1.getD driver
    if status ≠ k.PROTOCOLLAYER_INITIALIZE_SUCCESS then
      .ok { returned := toUInt16 status, world := w1, driver := driver1 }
    else
      let w2 := w1.log Event.t1prime_initialize
      let status := e.t1prime_status
      if status ≠ k.PROTOCOLLAYER_INITIALIZE_SUCCESS then
        let d := protocol_destroy w2 driver1
        .ok { returned := toUInt16 status, world := d.1, driver := d.2 }
      else
        match i2c_set_slave_address k e.malloc_ok_address w2 (some (driver1, [])) k.I2C_ADDRESS with
        | .error f => .error f
        | .ok r =>
          let driver2 : Protocol := (r.chain.map Prod.fst).getD driver1
          let w3 := r.world.log Event.protocol_activate
          let status := e.activate_status
          if status ≠ k.PROTOCOL_ACTIVATE_SUCCESS then
            let d := protocol_destroy w3 driver2
            .ok { returned := toUInt16 status, world := d.1, driver := d.2 }
          else
            .ok { returned := toUInt16 k.SUCCESS
                  world := w3.log Event.free_activate_response, driver := driver2 }

/-- How often `protocol_destroy` was called on `target`. -/
def destroy_calls (trace : List Event) (target : Object) : Nat :=
  trace.count (Event.protocol_destroy target)

/-- Modelled from the spec: how often a layer of the stack of `se_interface.c`
has been destroyed.  `destroy` releases the layer and then forwards to its
base, so the framing layer `protocol` is destroyed by the calls on
`&protocol`, and the driver layer, its base, by the calls on `&driver` and
by those on `&protocol`. -/
def times_destroyed (trace : List Event) : Object → Nat
  | Object.protocol => destroy_calls trace Object.protocol
  | Object.driver => destroy_calls trace Object.driver + destroy_calls trace Object.protocol

/-! ## Concrete inputs -/

/-- The file-scope variables at program start (zero-initialised statics), no
call made yet. -/
def World.initial : World :=
  { I2C_SLAVE_ADDR := 0, I2C_FREQ := 0, result := 0, trace := [] }

/-- A zero-initialised `static Protocol` object. -/
def Protocol.zeroed : Protocol :=
  { _layer_id := 0, _properties := none }

/-- A driver layer as `psoc6_i2c_initialize` labels it, with no properties
block allocated. -/
def Protocol.freshDriver : Protocol :=
  { _layer_id := PSOC6_I2C_PROTOCOLLAYER_ID, _properties := none }

/-- An environment in which every step of `se_interface_init` succeeds, for
the constants of `exampleHeaders`. -/
def InitEnv.allSucceed : InitEnv :=
  { NDEBUG := true, protocollayer_status := 0, malloc_ok_frequency := true
    malloc_ok_address := true, cyhal_init_rslt := 0, cyhal_configure_rslt := 0
    t1prime_status := 0, activate_status := 0 }

/-- A two-layer chain: a framing layer with id `0x21` on top of a driver layer
whose properties are not allocated yet. -/
def exampleStack : Protocol × List Protocol :=
  ({ _layer_id := 0x21, _properties := none },
    [{ _layer_id := PSOC6_I2C_PROTOCOLLAYER_ID, _properties := none }])

/-- A two-layer chain without a driver layer. -/
def exampleStackWithoutDriver : Protocol × List Protocol :=
  ({ _layer_id := 0x21, _properties := none }, [{ _layer_id := 0x22, _properties := none }])

end Bs2go

/-! ## Checksums: theorems -/

namespace Bs2go

theorem crc16_mcrf4xx_bits_eq (n crc : Nat) :
    crc16_mcrf4xx_bits n crc = crc16_ccitt_x25_bits n crc := by
  induction n generalizing crc with
  | zero => rfl
  | succ n ih => simp only [crc16_mcrf4xx_bits, crc16_ccitt_x25_bits, ih]

theorem crc16_mcrf4xx_byte_eq : crc16_mcrf4xx_byte = crc16_ccitt_x25_byte := by
  funext crc b
  simp only [crc16_mcrf4xx_byte, crc16_ccitt_x25_byte, crc16_mcrf4xx_bits_eq]

theorem crc16_ccitt_x25_bits_lt (n crc : Nat) (h : crc < 2 ^ 16) :
    crc16_ccitt_x25_bits n crc < 2 ^ 16 := by
  induction n generalizing crc with
  | zero => simpa [crc16_ccitt_x25_bits] using h
  | succ n ih =>
    unfold crc16_ccitt_x25_bits
    split
    · exact ih _ (Nat.mod_lt _ (by norm_num))
    · exact ih _ (Nat.mod_lt _ (by norm_num))

theorem crc16_ccitt_x25_byte_lt (crc : Nat) (b : Byte) :
    crc16_ccitt_x25_byte crc b < 2 ^ 16 :=
  crc16_ccitt_x25_bits_lt 8 _ (Nat.mod_lt _ (by norm_num))

theorem crc16_ccitt_x25_register_lt (data : List Byte) (crc : Nat) (h : crc < 2 ^ 16) :
    data.foldl crc16_ccitt_x25_byte crc < 2 ^ 16 := by
  induction data generalizing crc with
  | nil => simpa using h
  | cons b bs ih => exact ih _ (crc16_ccitt_x25_byte_lt crc b)

theorem lrc8_register_lt (data : List Byte) (lrc : Nat) (h : lrc < 2 ^ 8) :
    data.foldl (fun lrc b => (lrc ^^^ b.val) % 2 ^ 8) lrc < 2 ^ 8 := by
  induction data generalizing lrc with
  | nil => simpa using h
  | cons b bs ih => exact ih _ (Nat.mod_lt _ (by norm_num))

theorem lrc8_lt (data : List Byte) : lrc8 data < 256 :=
  lrc8_register_lt data 0 (by norm_num)

/-- C1: for every byte sequence `d`, `crc16_mcrf4xx d` equals
`crc16_ccitt_x25 d` XOR `0xFFFF`. -/
theorem crc16_mcrf4xx_eq_x25_xor (d : List Byte) :
    crc16_mcrf4xx d = crc16_ccitt_x25 d ^^^ 0xFFFF := by
  have hlt : d.foldl crc16_ccitt_x25_byte 0xffff < 2 ^ 16 :=
    crc16_ccitt_x25_register_lt d 0xffff (by norm_num)
  have hx : d.foldl crc16_ccitt_x25_byte 0xffff ^^^ 0xffff < 2 ^ 16 :=
    Nat.xor_lt_two_pow hlt (by norm_num)
  unfold crc16_mcrf4xx crc16_ccitt_x25
  rw [crc16_mcrf4xx_byte_eq, Nat.mod_eq_of_lt hx, Nat.xor_assoc, Nat.xor_self, Nat.xor_zero]

/-- C2: for every byte sequence `d`, the `lrc8` of `d` followed by the single
byte `lrc8 d` is `0`. -/
theorem lrc8_append_self (d : List Byte) :
    lrc8 (d ++ [⟨lrc8 d, lrc8_lt d⟩]) = 0 := by
  simp [lrc8, List.foldl_append]

/-- C3: there is a non-empty byte sequence on which `crc16_t1gd` differs from
both `crc16_ccitt_x25` and `crc16_mcrf4xx`. -/
theorem crc16_t1gd_differs :
    ∃ d : List Byte, d ≠ [] ∧ crc16_t1gd d ≠ crc16_ccitt_x25 d ∧
      crc16_t1gd d ≠ crc16_mcrf4xx d :=
  ⟨[0x31, 0x32], by decide⟩

end Bs2go

/-! ## Property delegation: theorems -/

namespace Bs2go

theorem lookup_skip_nil (k : Headers) (m : Bool) (w : World) (self : Protocol)
    (hid : self._layer_id ≠ PSOC6_I2C_PROTOCOLLAYER_ID) :
    i2c_get_protocol_state k m w self [] =
      { status := k.IFX_ERROR LIBPSOC6I2C k.PROTOCOL_GETPROPERTY k.INVALID_PROTOCOLSTACK
        world := w, self := self, base := [], protocol_state_buffer := none } := by
  rw [i2c_get_protocol_state]; simp [hid]

theorem lookup_skip_cons (k : Headers) (m : Bool) (w : World) (self b : Protocol)
    (bs : List Protocol) (hid : self._layer_id ≠ PSOC6_I2C_PROTOCOLLAYER_ID) :
    i2c_get_protocol_state k m w self (b :: bs) =
      { status := (i2c_get_protocol_state k m w b bs).status
        world := (i2c_get_protocol_state k m w b bs).world
        self := self
        base := (i2c_get_protocol_state k m w b bs).self ::
          (i2c_get_protocol_state k m w b bs).base
        protocol_state_buffer :=
          (i2c_get_protocol_state k m w b bs).protocol_state_buffer.map (· + 1) } := by
  rw [i2c_get_protocol_state]; simp [hid]

theorem lookup_hit_some (k : Headers) (m : Bool) (w : World) (self : Protocol)
    (base : List Protocol) (st : ProtocolState)
    (hid : self._layer_id = PSOC6_I2C_PROTOCOLLAYER_ID) (hp : self._properties = some st) :
    i2c_get_protocol_state k m w self base =
      { status := k.PROTOCOL_GETPROPERTY_SUCCESS, world := w, self := self, base := base
        protocol_state_buffer := some 0 } := by
  cases base <;> (rw [i2c_get_protocol_state]; simp [hid, hp])

theorem lookup_hit_fresh (k : Headers) (w : World) (self : Protocol)
    (base : List Protocol)
    (hid : self._layer_id = PSOC6_I2C_PROTOCOLLAYER_ID) (hp : self._properties = none) :
    i2c_get_protocol_state k true w self base =
      { status := k.PROTOCOL_GETPROPERTY_SUCCESS
        world := w.log (Event.malloc_properties true)
        self :=
          { self with
            _properties := some
              { slave_address := I2C_DEFAULT_SLAVE_ADDRESS % 2 ^ 16
                clock_frequency := I2C_DEFAULT_CLOCK_FREQUENCY % 2 ^ 32 } }
        base := base, protocol_state_buffer := some 0 } := by
  cases base <;> (rw [i2c_get_protocol_state]; simp [hid, hp])

theorem lookup_hit_no_memory (k : Headers) (w : World) (self : Protocol)
    (base : List Protocol)
    (hid : self._layer_id = PSOC6_I2C_PROTOCOLLAYER_ID) (hp : self._properties = none) :
    i2c_get_protocol_state k false w self base =
      { status := k.IFX_ERROR LIBPSOC6I2C k.PROTOCOL_GETPROPERTY k.OUT_OF_MEMORY
        world := w.log (Event.malloc_properties false)
        self := self, base := base, protocol_state_buffer := none } := by
  cases base <;> (rw [i2c_get_protocol_state]; simp [hid, hp])

theorem lookup_found (k : Headers) (m : Bool) (w : World) (self : Protocol)
    (base : List Protocol) (i : Nat)
    (h : (i2c_get_protocol_state k m w self base).protocol_state_buffer = some i) :
    (i2c_get_protocol_state k m w self base).status = k.PROTOCOL_GETPROPERTY_SUCCESS ∧
    (∃ st, readState (i2c_get_protocol_state k m w self base).self
      (i2c_get_protocol_state k m w self base).base i = some st) ∧
    ∀ (f : ProtocolState → ProtocolState) (m1 : Bool) (w1 : World),
      i2c_get_protocol_state k m1 w1
        (writeState f (i2c_get_protocol_state k m w self base).self
          (i2c_get_protocol_state k m w self base).base i).1
        (writeState f (i2c_get_protocol_state k m w self base).self
          (i2c_get_protocol_state k m w self base).base i).2 =
      { status := k.PROTOCOL_GETPROPERTY_SUCCESS, world := w1
        self := (writeState f (i2c_get_protocol_state k m w self base).self
          (i2c_get_protocol_state k m w self base).base i).1
        base := (writeState f (i2c_get_protocol_state k m w self base).self
          (i2c_get_protocol_state k m w self base).base i).2
        protocol_state_buffer := some i } := by
  induction base generalizing self i with
  | nil =>
    by_cases hid : self._layer_id = PSOC6_I2C_PROTOCOLLAYER_ID
    · cases hp : self._properties with
      | none =>
        cases m with
        | false => rw [lookup_hit_no_memory k w self [] hid hp] at h; simp at h
        | true =>
          rw [lookup_hit_fresh k w self [] hid hp] at h ⊢
          simp only [Option.some.injEq] at h
          subst h
          refine ⟨rfl, ⟨_, rfl⟩, fun f m1 w1 => ?_⟩
          exact lookup_hit_some k m1 w1 _ _ _ hid rfl
      | some st =>
        rw [lookup_hit_some k m w self [] st hid hp] at h ⊢
        simp only [Option.some.injEq] at h
        subst h
        refine ⟨rfl, ⟨st, hp⟩, fun f m1 w1 => ?_⟩
        exact lookup_hit_some k m1 w1 _ _ (f st) hid (by simp [writeState, hp])
    · rw [lookup_skip_nil k m w self hid] at h; simp at h
  | cons b bs ih =>
    by_cases hid : self._layer_id = PSOC6_I2C_PROTOCOLLAYER_ID
    · cases hp : self._properties with
      | none =>
        cases m with
        | false => rw [lookup_hit_no_memory k w self _ hid hp] at h; simp at h
        | true =>
          rw [lookup_hit_fresh k w self _ hid hp] at h ⊢
          simp only [Option.some.injEq] at h
          subst h
          refine ⟨rfl, ⟨_, rfl⟩, fun f m1 w1 => ?_⟩
          exact lookup_hit_some k m1 w1 _ _ _ hid rfl
      | some st =>
        rw [lookup_hit_some k m w self _ st hid hp] at h ⊢
        simp only [Option.some.injEq] at h
        subst h
        refine ⟨rfl, ⟨st, hp⟩, fun f m1 w1 => ?_⟩
        exact lookup_hit_some k m1 w1 _ _ (f st) hid (by simp [writeState, hp])
    · rw [lookup_skip_cons k m w self b bs hid] at h ⊢
      simp only [Option.map_eq_some'] at h
      obtain ⟨j, hj, rfl⟩ := h
      obtain ⟨h1, h2, h3⟩ := ih b j hj
      refine ⟨h1, ?_, fun f m1 w1 => ?_⟩
      · simpa [readState] using h2
      · simp only [writeState]
        rw [lookup_skip_cons k m1 w1 self _ _ hid, h3 f m1 w1]
        rfl

theorem readState_writeState (f : ProtocolState → ProtocolState) (self : Protocol)
    (base : List Protocol) (i : Nat) (st : ProtocolState)
    (h : readState self base i = some st) :
    readState (writeState f self base i).1 (writeState f self base i).2 i = some (f st) := by
  induction base generalizing self i with
  | nil =>
    cases i with
    | zero => simp_all [readState, writeState]
    | succ n => simp [readState] at h
  | cons b bs ih =>
    cases i with
    | zero => simp_all [readState, writeState]
    | succ n =>
      simp only [readState] at h
      simpa [readState, writeState] using ih b n h

theorem lookup_not_found (k : Headers) (m : Bool) (w : World) (self : Protocol)
    (base : List Protocol)
    (h : (i2c_get_protocol_state k m w self base).protocol_state_buffer = none) :
    ∃ reason, (i2c_get_protocol_state k m w self base).status =
      k.IFX_ERROR LIBPSOC6I2C k.PROTOCOL_GETPROPERTY reason := by
  induction base generalizing self with
  | nil =>
    by_cases hid : self._layer_id = PSOC6_I2C_PROTOCOLLAYER_ID
    · cases hp : self._properties with
      | none =>
        cases m with
        | false => rw [lookup_hit_no_memory k w self [] hid hp]; exact ⟨_, rfl⟩
        | true => rw [lookup_hit_fresh k w self [] hid hp] at h; simp at h
      | some st => rw [lookup_hit_some k m w self [] st hid hp] at h; simp at h
    · rw [lookup_skip_nil k m w self hid]; exact ⟨_, rfl⟩
  | cons b bs ih =>
    by_cases hid : self._layer_id = PSOC6_I2C_PROTOCOLLAYER_ID
    · cases hp : self._properties with
      | none =>
        cases m with
        | false => rw [lookup_hit_no_memory k w self _ hid hp]; exact ⟨_, rfl⟩
        | true => rw [lookup_hit_fresh k w self _ hid hp] at h; simp at h
      | some st => rw [lookup_hit_some k m w self _ st hid hp] at h; simp at h
    · rw [lookup_skip_cons k m w self b bs hid] at h ⊢
      simp only [Option.map_eq_none'] at h
      exact ih b h

theorem lookup_no_owner (k : Headers) (m : Bool) (w : World) (self : Protocol)
    (base : List Protocol)
    (h : ∀ l ∈ self :: base, l._layer_id ≠ PSOC6_I2C_PROTOCOLLAYER_ID) :
    i2c_get_protocol_state k m w self base =
      { status := k.IFX_ERROR LIBPSOC6I2C k.PROTOCOL_GETPROPERTY k.INVALID_PROTOCOLSTACK
        world := w, self := self, base := base, protocol_state_buffer := none } := by
  induction base generalizing self with
  | nil => exact lookup_skip_nil k m w self (h self (by simp))
  | cons b bs ih =>
    rw [lookup_skip_cons k m w self b bs (h self (by simp)),
      ih b (fun l hl => h l (List.mem_cons_of_mem _ hl))]
    rfl

theorem lookup_fresh_owner (k : Headers) (w : World) (self : Protocol)
    (base : List Protocol) (owner : Protocol)
    (hfind : (self :: base).find? (fun l => l._layer_id == PSOC6_I2C_PROTOCOLLAYER_ID) =
      some owner)
    (hfresh : owner._properties = none) :
    (i2c_get_protocol_state k true w self base).status = k.PROTOCOL_GETPROPERTY_SUCCESS ∧
    ∃ i, (i2c_get_protocol_state k true w self base).protocol_state_buffer = some i ∧
      readState (i2c_get_protocol_state k true w self base).self
        (i2c_get_protocol_state k true w self base).base i =
        some { slave_address := 0x50, clock_frequency := 400000 } := by
  induction base generalizing self with
  | nil =>
    by_cases hid : self._layer_id = PSOC6_I2C_PROTOCOLLAYER_ID
    · simp only [List.find?_cons, hid, beq_self_eq_true, Option.some.injEq] at hfind
      subst hfind
      rw [lookup_hit_fresh k w self _ hid hfresh]
      exact ⟨rfl, 0, rfl, rfl⟩
    · simp [List.find?_cons, hid] at hfind
  | cons b bs ih =>
    by_cases hid : self._layer_id = PSOC6_I2C_PROTOCOLLAYER_ID
    · simp only [List.find?_cons, hid, beq_self_eq_true, Option.some.injEq] at hfind
      subst hfind
      rw [lookup_hit_fresh k w self _ hid hfresh]
      exact ⟨rfl, 0, rfl, rfl⟩
    · have hb : (b :: bs).find? (fun l => l._layer_id == PSOC6_I2C_PROTOCOLLAYER_ID) =
          some owner := by
        have hne : (self._layer_id == PSOC6_I2C_PROTOCOLLAYER_ID) = false := by
          simpa using hid
        rw [List.find?_cons, hne] at hfind
        exact hfind
      obtain ⟨h1, i, h2, h3⟩ := ih b hb
      rw [lookup_skip_cons k true w self b bs hid]
      exact ⟨h1, i + 1, by simp [h2], by simpa [readState] using h3⟩

/-- C4: on a layer chain whose layer with id `PSOC6_I2C_PROTOCOLLAYER_ID` (the
one the walk from the top reaches; the only one when a single layer owns the
property) has no properties block yet, allocation succeeding,
`i2c_get_slave_address` on the top of the chain succeeds and yields `0x50`, and
`i2c_get_clock_frequency` succeeds and yields `400000`. -/
theorem i2c_get_defaults (k : Headers) (w : World) (self : Protocol)
    (base : List Protocol) (owner : Protocol)
    (hfind : (self :: base).find? (fun l => l._layer_id == PSOC6_I2C_PROTOCOLLAYER_ID) =
      some owner)
    (hfresh : owner._properties = none) :
    (∃ r, i2c_get_slave_address k true w self base = .ok r ∧
      r.status = k.PROTOCOL_GETPROPERTY_SUCCESS ∧ r.value = some 0x50) ∧
    (∃ r, i2c_get_clock_frequency k true w self base = .ok r ∧
      r.status = k.PROTOCOL_GETPROPERTY_SUCCESS ∧ r.value = some 400000) := by
  obtain ⟨hs, i, hi, hr⟩ := lookup_fresh_owner k w self base owner hfind hfresh
  constructor
  · simp [i2c_get_slave_address, hs, hi, hr]
  · simp [i2c_get_clock_frequency, hs, hi, hr]

theorem i2c_get_defaults_witness :
    (∃ r, i2c_get_slave_address exampleHeaders true World.initial exampleStack.1
        exampleStack.2 = .ok r ∧
      r.status = exampleHeaders.PROTOCOL_GETPROPERTY_SUCCESS ∧ r.value = some 0x50) ∧
    (∃ r, i2c_get_clock_frequency exampleHeaders true World.initial exampleStack.1
        exampleStack.2 = .ok r ∧
      r.status = exampleHeaders.PROTOCOL_GETPROPERTY_SUCCESS ∧ r.value = some 400000) :=
  i2c_get_defaults exampleHeaders World.initial exampleStack.1 exampleStack.2
    { _layer_id := PSOC6_I2C_PROTOCOLLAYER_ID, _properties := none } (by decide) rfl

theorem get_slave_address_of_lookup (k : Headers) (m : Bool) (w : World) (self : Protocol)
    (base : List Protocol) (i : Nat) (st : ProtocolState)
    (hlook : i2c_get_protocol_state k m w self base =
      { status := k.PROTOCOL_GETPROPERTY_SUCCESS, world := w, self := self, base := base
        protocol_state_buffer := some i })
    (hread : readState self base i = some st) :
    i2c_get_slave_address k m w self base =
      .ok { status := k.PROTOCOL_GETPROPERTY_SUCCESS, world := w, self := self, base := base
            value := some (st.slave_address % 2 ^ 16) } := by
  simp [i2c_get_slave_address, hlook, hread]

theorem get_clock_frequency_of_lookup (k : Headers) (m : Bool) (w : World) (self : Protocol)
    (base : List Protocol) (i : Nat) (st : ProtocolState)
    (hlook : i2c_get_protocol_state k m w self base =
      { status := k.PROTOCOL_GETPROPERTY_SUCCESS, world := w, self := self, base := base
        protocol_state_buffer := some i })
    (hread : readState self base i = some st) :
    i2c_get_clock_frequency k m w self base =
      .ok { status := k.PROTOCOL_GETPROPERTY_SUCCESS, world := w, self := self, base := base
            value := some (st.clock_frequency % 2 ^ 32) } := by
  simp [i2c_get_clock_frequency, hlook, hread]

theorem exampleHeaders_error_ne_zero (m f r : Nat) : exampleHeaders.IFX_ERROR m f r ≠ 0 := by
  simp only [exampleHeaders]
  omega

/-- C5: set/get round trip through the chain.  For every layer chain and every
16-bit value `v`, when `i2c_set_slave_address` on the top of the chain has
returned success, `i2c_get_slave_address` on the top of the chain returns
success with value `v`; likewise, for every 32-bit `f`, when
`i2c_set_clock_frequency` has returned success, `i2c_get_clock_frequency`
yields `f`.  Error codes are taken to differ from the setter's success code. -/
theorem i2c_set_get_roundtrip (k : Headers) (m1 m2 : Bool) (w : World) (self : Protocol)
    (base : List Protocol) (v f : Nat) (hv : v < 2 ^ 16) (hf : f < 2 ^ 32)
    (hk : ∀ reason, k.IFX_ERROR LIBPSOC6I2C k.PROTOCOL_GETPROPERTY reason ≠
      k.PROTOCOL_SETPROPERTY_SUCCESS) :
    (∀ r, i2c_set_slave_address k m1 w (some (self, base)) v = .ok r →
      r.status = k.PROTOCOL_SETPROPERTY_SUCCESS →
      ∃ top below g, r.chain = some (top, below) ∧
        i2c_get_slave_address k m2 r.world top below = .ok g ∧
        g.status = k.PROTOCOL_GETPROPERTY_SUCCESS ∧ g.value = some v) ∧
    (∀ r, i2c_set_clock_frequency k m1 w self base f = .ok r →
      r.status = k.PROTOCOL_SETPROPERTY_SUCCESS →
      ∃ g, i2c_get_clock_frequency k m2 r.world r.self r.base = .ok g ∧
        g.status = k.PROTOCOL_GETPROPERTY_SUCCESS ∧ g.value = some f) := by
  constructor
  · intro r hset hstatus
    unfold i2c_set_slave_address at hset
    simp only at hset
    split at hset
    · rename_i hne
      cases hptr : (i2c_get_protocol_state k m1 w self base).protocol_state_buffer with
      | none =>
        obtain ⟨reason, hreason⟩ := lookup_not_found k m1 w self base hptr
        simp only [Except.ok.injEq] at hset
        subst hset
        exact absurd (hreason ▸ hstatus) (hk reason)
      | some i => exact absurd (lookup_found k m1 w self base i hptr).1 hne
    · split at hset
      · simp at hset
      · rename_i i hptr
        split at hset
        · simp at hset
        · rename_i st hst
          simp only [Except.ok.injEq] at hset
          subst hset
          obtain ⟨_, _, hagain⟩ := lookup_found k m1 w self base i hptr
          have hread := readState_writeState
            (fun s => { s with slave_address := v % 2 ^ 16 }) _ _ i st hst
          refine ⟨_, _, _, rfl, get_slave_address_of_lookup k m2 _ _ _ i _ (hagain _ m2 _) hread,
            rfl, ?_⟩
          simpa using hv
  · intro r hset hstatus
    unfold i2c_set_clock_frequency at hset
    simp only at hset
    split at hset
    · rename_i hne
      cases hptr : (i2c_get_protocol_state k m1 w self base).protocol_state_buffer with
      | none =>
        obtain ⟨reason, hreason⟩ := lookup_not_found k m1 w self base hptr
        simp only [Except.ok.injEq] at hset
        subst hset
        exact absurd (hreason ▸ hstatus) (hk reason)
      | some i => exact absurd (lookup_found k m1 w self base i hptr).1 hne
    · split at hset
      · simp at hset
      · rename_i i hptr
        split at hset
        · simp at hset
        · rename_i st hst
          simp only [Except.ok.injEq] at hset
          subst hset
          obtain ⟨_, _, hagain⟩ := lookup_found k m1 w self base i hptr
          have hread := readState_writeState
            (fun s => { s with clock_frequency := f % 2 ^ 32 }) _ _ i st hst
          refine ⟨_, get_clock_frequency_of_lookup k m2 _ _ _ i _ (hagain _ m2 _) hread,
            rfl, ?_⟩
          simpa using hf

theorem i2c_set_get_roundtrip_witness :
    (∃ top below g,
      (some ({ _layer_id := 0x21, _properties := none },
        [{ _layer_id := 0x34
           _properties := some { slave_address := 0x51, clock_frequency := 400000 } }]) :
        Option (Protocol × List Protocol)) = some (top, below) ∧
      i2c_get_slave_address exampleHeaders true
        { I2C_SLAVE_ADDR := 0x51, I2C_FREQ := 0, result := 0
          trace := [Event.malloc_properties true] } top below = .ok g ∧
      g.status = exampleHeaders.PROTOCOL_GETPROPERTY_SUCCESS ∧ g.value = some 0x51) ∧
    (∃ g,
      i2c_get_clock_frequency exampleHeaders true
        { I2C_SLAVE_ADDR := 0, I2C_FREQ := 100000, result := 0
          trace := [Event.malloc_properties true] }
        { _layer_id := 0x21, _properties := none }
        [{ _layer_id := 0x34
           _properties := some { slave_address := 0x50, clock_frequency := 100000 } }] = .ok g ∧
      g.status = exampleHeaders.PROTOCOL_GETPROPERTY_SUCCESS ∧ g.value = some 100000) :=
  ⟨(i2c_set_get_roundtrip exampleHeaders true true World.initial exampleStack.1 exampleStack.2
      0x51 100000 (by decide) (by decide)
      (fun reason => exampleHeaders_error_ne_zero _ _ reason)).1
      { status := 0
        world :=
          { I2C_SLAVE_ADDR := 0x51, I2C_FREQ := 0, result := 0
            trace := [Event.malloc_properties true] }
        chain := some ({ _layer_id := 0x21, _properties := none },
          [{ _layer_id := 0x34
             _properties := some { slave_address := 0x51, clock_frequency := 400000 } }]) }
      rfl rfl,
    (i2c_set_get_roundtrip exampleHeaders true true World.initial exampleStack.1 exampleStack.2
      0x51 100000 (by decide) (by decide)
      (fun reason => exampleHeaders_error_ne_zero _ _ reason)).2
      { status := 0
        world :=
          { I2C_SLAVE_ADDR := 0, I2C_FREQ := 100000, result := 0
            trace := [Event.malloc_properties true] }
        self := { _layer_id := 0x21, _properties := none }
        base := [{ _layer_id := 0x34
                   _properties := some { slave_address := 0x50, clock_frequency := 100000 } }] }
      rfl rfl⟩

/-- C6: on a non-empty layer chain in which no layer has id
`PSOC6_I2C_PROTOCOLLAYER_ID`, each of `i2c_get_clock_frequency`,
`i2c_set_clock_frequency`, `i2c_get_slave_address` and `i2c_set_slave_address`
called on the top layer returns
`IFX_ERROR (LIBPSOC6I2C, PROTOCOL_GETPROPERTY, INVALID_PROTOCOLSTACK)` and leaves
every layer, the file-scope variables and the trace as they were (nothing is
allocated).  The error code is taken to differ from the getter's success code. -/
theorem i2c_no_owner_invalid_protocolstack (k : Headers) (m : Bool) (w : World)
    (self : Protocol) (base : List Protocol) (frequency address : Nat)
    (hnone : ∀ l ∈ self :: base, l._layer_id ≠ PSOC6_I2C_PROTOCOLLAYER_ID)
    (hk : k.IFX_ERROR LIBPSOC6I2C k.PROTOCOL_GETPROPERTY k.INVALID_PROTOCOLSTACK ≠
      k.PROTOCOL_GETPROPERTY_SUCCESS) :
    i2c_get_clock_frequency k m w self base =
      .ok { status := k.IFX_ERROR LIBPSOC6I2C k.PROTOCOL_GETPROPERTY k.INVALID_PROTOCOLSTACK
            world := w, self := self, base := base, value := none } ∧
    i2c_set_clock_frequency k m w self base frequency =
      .ok { status := k.IFX_ERROR LIBPSOC6I2C k.PROTOCOL_GETPROPERTY k.INVALID_PROTOCOLSTACK
            world := w, self := self, base := base } ∧
    i2c_get_slave_address k m w self base =
      .ok { status := k.IFX_ERROR LIBPSOC6I2C k.PROTOCOL_GETPROPERTY k.INVALID_PROTOCOLSTACK
            world := w, self := self, base := base, value := none } ∧
    i2c_set_slave_address k m w (some (self, base)) address =
      .ok { status := k.IFX_ERROR LIBPSOC6I2C k.PROTOCOL_GETPROPERTY k.INVALID_PROTOCOLSTACK
            world := w, chain := some (self, base) } := by
  have hlook := lookup_no_owner k m w self base hnone
  refine ⟨?_, ?_, ?_, ?_⟩
  · simp [i2c_get_clock_frequency, hlook, hk]
  · simp [i2c_set_clock_frequency, hlook, hk]
  · simp [i2c_get_slave_address, hlook, hk]
  · simp [i2c_set_slave_address, hlook, hk]

theorem i2c_no_owner_invalid_protocolstack_witness :
    i2c_get_clock_frequency exampleHeaders true World.initial exampleStackWithoutDriver.1
        exampleStackWithoutDriver.2 =
      .ok { status := exampleHeaders.IFX_ERROR LIBPSOC6I2C exampleHeaders.PROTOCOL_GETPROPERTY
              exampleHeaders.INVALID_PROTOCOLSTACK
            world := World.initial, self := exampleStackWithoutDriver.1
            base := exampleStackWithoutDriver.2, value := none } ∧
    i2c_set_clock_frequency exampleHeaders true World.initial exampleStackWithoutDriver.1
        exampleStackWithoutDriver.2 100000 =
      .ok { status := exampleHeaders.IFX_ERROR LIBPSOC6I2C exampleHeaders.PROTOCOL_GETPROPERTY
              exampleHeaders.INVALID_PROTOCOLSTACK
            world := World.initial, self := exampleStackWithoutDriver.1
            base := exampleStackWithoutDriver.2 } ∧
    i2c_get_slave_address exampleHeaders true World.initial exampleStackWithoutDriver.1
        exampleStackWithoutDriver.2 =
      .ok { status := exampleHeaders.IFX_ERROR LIBPSOC6I2C exampleHeaders.PROTOCOL_GETPROPERTY
              exampleHeaders.INVALID_PROTOCOLSTACK
            world := World.initial, self := exampleStackWithoutDriver.1
            base := exampleStackWithoutDriver.2, value := none } ∧
    i2c_set_slave_address exampleHeaders true World.initial
        (some (exampleStackWithoutDriver.1, exampleStackWithoutDriver.2)) 0x51 =
      .ok { status := exampleHeaders.IFX_ERROR LIBPSOC6I2C exampleHeaders.PROTOCOL_GETPROPERTY
              exampleHeaders.INVALID_PROTOCOLSTACK
            world := World.initial
            chain := some (exampleStackWithoutDriver.1, exampleStackWithoutDriver.2) } :=
  i2c_no_owner_invalid_protocolstack exampleHeaders true World.initial
    exampleStackWithoutDriver.1 exampleStackWithoutDriver.2 100000 0x51 (by decide)
    (exampleHeaders_error_ne_zero _ _ _)

/-- C7: `psoc6_i2c_destroy` is idempotent on the property storage of the layer
and tolerates an absent layer.  After one call the properties block of the
layer is absent, freed once if there was one; a second call on the same layer
leaves the layer as it is and adds to the trace the call of `cyhal_i2c_free`
only, so that over both calls the block is freed exactly once; a call with a
`NULL` layer changes nothing. -/
theorem psoc6_i2c_destroy_idempotent (w : World) (self : Protocol) :
    (psoc6_i2c_destroy w (some self)).2 = some { self with _properties := none } ∧
    (psoc6_i2c_destroy w (some self)).1.trace.count Event.free_properties =
      w.trace.count Event.free_properties + (if self._properties.isSome then 1 else 0) ∧
    (psoc6_i2c_destroy (psoc6_i2c_destroy w (some self)).1 (psoc6_i2c_destroy w (some self)).2).2 =
      (psoc6_i2c_destroy w (some self)).2 ∧
    (psoc6_i2c_destroy (psoc6_i2c_destroy w (some self)).1 (psoc6_i2c_destroy w (some self)).2).1 =
      (psoc6_i2c_destroy w (some self)).1.log Event.cyhal_i2c_free ∧
    (psoc6_i2c_destroy (psoc6_i2c_destroy w (some self)).1
        (psoc6_i2c_destroy w (some self)).2).1.trace.count Event.free_properties =
      w.trace.count Event.free_properties + (if self._properties.isSome then 1 else 0) ∧
    psoc6_i2c_destroy w none = (w, none) := by
  obtain ⟨id, props⟩ := self
  cases props with
  | none => simp [psoc6_i2c_destroy, World.log, List.count_append]
  | some st => simp [psoc6_i2c_destroy, World.log, List.count_append]

/-! ## Transmit and receive: theorems -/

theorem toInt32_ne (a b : Nat) (ha : a < 2 ^ 32) (hb : b < 2 ^ 32) (h : a ≠ b) :
    toInt32 a ≠ toInt32 b := by
  unfold toInt32
  rw [Nat.mod_eq_of_lt ha, Nat.mod_eq_of_lt hb]
  split_ifs <;> omega

theorem psoc6_i2c_receive_success (k : Headers) (rslt : Nat) (rx : List Byte) (w : World)
    (self : Protocol) (expected_len : Nat) (old_response : Option HeapBuffer) (old_len : Nat)
    (hpos : expected_len ≠ 0) (hmax : expected_len ≤ 0xffffffff)
    (hok : rslt % 2 ^ 32 = k.CY_RSLT_SUCCESS) :
    psoc6_i2c_receive k true rslt rx w (some self) expected_len (some old_response)
        (some old_len) =
      { status := k.PROTOCOL_RECEIVE_SUCCESS
        world :=
          { ((w.log (Event.malloc_response expected_len true)).log
              (Event.cyhal_i2c_master_read w.I2C_SLAVE_ADDR (expected_len % 2 ^ 16))) with
            result := rslt % 2 ^ 32 }
        response := some (some
          (((rx.take (expected_len % 2 ^ 16)).map some ++
            List.replicate expected_len none).take expected_len))
        response_len := some expected_len } := by
  have hguard : ¬ (expected_len = 0 ∨ expected_len > 0xffffffff) := by omega
  have hok1 : rslt % 4294967296 = k.CY_RSLT_SUCCESS := hok
  simp [psoc6_i2c_receive, hguard, hok1]

theorem psoc6_i2c_receive_failure (k : Headers) (rslt : Nat) (rx : List Byte) (w : World)
    (self : Protocol) (expected_len : Nat) (old_response : Option HeapBuffer) (old_len : Nat)
    (hpos : expected_len ≠ 0) (hmax : expected_len ≤ 0xffffffff)
    (hrange : k.CY_RSLT_SUCCESS < 2 ^ 32)
    (hsuccess : k.PROTOCOL_RECEIVE_SUCCESS = toInt32 k.CY_RSLT_SUCCESS)
    (hfail : rslt % 2 ^ 32 ≠ k.CY_RSLT_SUCCESS) :
    (psoc6_i2c_receive k true rslt rx w (some self) expected_len (some old_response)
      (some old_len)).status ≠ k.PROTOCOL_RECEIVE_SUCCESS ∧
    (psoc6_i2c_receive k true rslt rx w (some self) expected_len (some old_response)
      (some old_len)).response = some none ∧
    (psoc6_i2c_receive k true rslt rx w (some self) expected_len (some old_response)
      (some old_len)).response_len = some 0 := by
  have hguard : ¬ (expected_len = 0 ∨ expected_len > 0xffffffff) := by omega
  have hfail1 : ¬ rslt % 4294967296 = k.CY_RSLT_SUCCESS := hfail
  have hne : toInt32 (rslt % 2 ^ 32) ≠ k.PROTOCOL_RECEIVE_SUCCESS := by
    rw [hsuccess]
    exact toInt32_ne _ _ (Nat.mod_lt _ (by norm_num)) hrange hfail
  have hne1 : ¬ toInt32 (rslt % 4294967296) = k.PROTOCOL_RECEIVE_SUCCESS := hne
  simp [psoc6_i2c_receive, hguard, hfail1, World.log, hne1]

theorem psoc6_i2c_receive_complete (k : Headers) (rslt : Nat) (rx : List Byte) (w : World)
    (self : Protocol) (expected_len : Nat) (old_response : Option HeapBuffer) (old_len : Nat)
    (hpos : expected_len ≠ 0) (hmax : expected_len ≤ 0xffff)
    (hrx : expected_len ≤ rx.length)
    (hok : rslt % 2 ^ 32 = k.CY_RSLT_SUCCESS) :
    (psoc6_i2c_receive k true rslt rx w (some self) expected_len (some old_response)
      (some old_len)).response = some (some ((rx.take expected_len).map some)) := by
  rw [psoc6_i2c_receive_success k rslt rx w self expected_len old_response old_len hpos
    (by omega) hok]
  have hsize : expected_len % 2 ^ 16 = expected_len := Nat.mod_eq_of_lt (by omega)
  have hlen : ((rx.take expected_len).map some).length = expected_len := by
    simp [List.length_take, hrx]
  simp only [hsize]
  rw [List.take_append_of_le_length (by omega), List.take_of_length_le (by omega)]

theorem one_byte_written (b : Byte) (rest : List Byte) (n : Nat) :
    List.take (n + 1)
      (((b :: rest).take 1).map some ++ (List.replicate (n + 1) none : HeapBuffer)) =
      some b :: List.replicate n none := by
  simp [List.take_replicate]

/-- C9: evaluation of `psoc6_i2c_receive` where a partial buffer is handed back.
With valid arguments, `expected_len = 65537` and the bus read reporting
success, the call returns `PROTOCOL_RECEIVE_SUCCESS` with `*response_len` equal
to `65537`, yet it has asked the bus for `65537 mod 2^16 = 1` byte: of the
`65537` bytes of `*response` only the first is written. -/
theorem psoc6_i2c_receive_partial_buffer :
    (psoc6_i2c_receive exampleHeaders true 0 [0x90, 0x00] World.initial
      (some Protocol.zeroed) 65537 (some none) (some 0)).status =
        exampleHeaders.PROTOCOL_RECEIVE_SUCCESS ∧
    (psoc6_i2c_receive exampleHeaders true 0 [0x90, 0x00] World.initial
      (some Protocol.zeroed) 65537 (some none) (some 0)).response_len = some 65537 ∧
    (psoc6_i2c_receive exampleHeaders true 0 [0x90, 0x00] World.initial
      (some Protocol.zeroed) 65537 (some none) (some 0)).world.trace =
        [Event.malloc_response 65537 true, Event.cyhal_i2c_master_read 0 1] ∧
    (psoc6_i2c_receive exampleHeaders true 0 [0x90, 0x00] World.initial
      (some Protocol.zeroed) 65537 (some none) (some 0)).response =
        some (some (some 0x90 :: List.replicate 65536 none)) := by
  rw [psoc6_i2c_receive_success exampleHeaders 0 [0x90, 0x00] World.initial Protocol.zeroed
    65537 none 0 (by decide) (by decide) rfl]
  exact ⟨rfl, rfl, rfl, congrArg (fun buffer => some (some buffer))
    (one_byte_written 0x90 [0x00] 65536)⟩

/-- C10: argument validation precedes any work in the transport layer.
`psoc6_i2c_transmit` with a `NULL` layer, `NULL` data or `data_len = 0` returns
`IFX_ERROR (LIBPSOC6I2C, PROTOCOL_TRANSMIT, ILLEGAL_ARGUMENT)` and
`psoc6_i2c_receive` with a `NULL` layer, `expected_len = 0`, `NULL` response or
`NULL` response_len returns
`IFX_ERROR (LIBPSOC6I2C, PROTOCOL_RECEIVE, ILLEGAL_ARGUMENT)`; in each case the
trace and the variables are as before the call: no bus write, no allocation,
no bus read. -/
theorem psoc6_i2c_argument_validation (k : Headers) (malloc_ok : Bool) (rslt : Nat)
    (rx : List Byte) (w : World) (self : Option Protocol) (data : Option (List Byte))
    (data_len expected_len : Nat) (response : Option (Option HeapBuffer))
    (response_len : Option Nat) :
    psoc6_i2c_transmit k rslt w none data data_len =
      (k.IFX_ERROR LIBPSOC6I2C k.PROTOCOL_TRANSMIT k.ILLEGAL_ARGUMENT, w) ∧
    psoc6_i2c_transmit k rslt w self none data_len =
      (k.IFX_ERROR LIBPSOC6I2C k.PROTOCOL_TRANSMIT k.ILLEGAL_ARGUMENT, w) ∧
    psoc6_i2c_transmit k rslt w self data 0 =
      (k.IFX_ERROR LIBPSOC6I2C k.PROTOCOL_TRANSMIT k.ILLEGAL_ARGUMENT, w) ∧
    psoc6_i2c_receive k malloc_ok rslt rx w none expected_len response response_len =
      { status := k.IFX_ERROR LIBPSOC6I2C k.PROTOCOL_RECEIVE k.ILLEGAL_ARGUMENT
        world := w, response := response, response_len := response_len } ∧
    psoc6_i2c_receive k malloc_ok rslt rx w self 0 response response_len =
      { status := k.IFX_ERROR LIBPSOC6I2C k.PROTOCOL_RECEIVE k.ILLEGAL_ARGUMENT
        world := w, response := response, response_len := response_len } ∧
    psoc6_i2c_receive k malloc_ok rslt rx w self expected_len none response_len =
      { status := k.IFX_ERROR LIBPSOC6I2C k.PROTOCOL_RECEIVE k.ILLEGAL_ARGUMENT
        world := w, response := none, response_len := response_len } ∧
    psoc6_i2c_receive k malloc_ok rslt rx w self expected_len response none =
      { status := k.IFX_ERROR LIBPSOC6I2C k.PROTOCOL_RECEIVE k.ILLEGAL_ARGUMENT
        world := w, response := response, response_len := none } := by
  refine ⟨?_, ?_, ?_, ?_, ?_, ?_, ?_⟩
  · simp [psoc6_i2c_transmit]
  · cases self <;> simp [psoc6_i2c_transmit]
  · cases self <;> cases data <;> simp [psoc6_i2c_transmit]
  · simp [psoc6_i2c_receive]
  · cases self <;> cases response <;> cases response_len <;> simp [psoc6_i2c_receive]
  · cases self <;> simp [psoc6_i2c_receive]
  · cases self <;> cases response <;> simp [psoc6_i2c_receive]

/-! ## `se_interface_init`: theorems -/

/-- C8: evaluation of `se_interface_init` where the unwinding falls short.
When driver and framing layer initialise and `protocol_activate` then reports
`-1`, the error is returned after one `protocol_destroy (&driver)`: the driver
layer is destroyed once, the framing layer `protocol`, initialised by then,
not at all.  When `cyhal_i2c_configure` fails inside `psoc6_i2c_initialize`
(assertions compiled out), the error is returned with no layer destroyed and
the properties block, allocated by `i2c_set_clock_frequency`, still in place. -/
theorem se_interface_init_incomplete_unwinding :
    (∃ r, se_interface_init exampleHeaders { InitEnv.allSucceed with activate_status := -1 }
        World.initial Protocol.zeroed = .ok r ∧
      r.returned = toUInt16 (-1) ∧
      times_destroyed r.world.trace Object.driver = 1 ∧
      times_destroyed r.world.trace Object.protocol = 0) ∧
    (∃ r, se_interface_init exampleHeaders { InitEnv.allSucceed with cyhal_configure_rslt := 1 }
        World.initial Protocol.zeroed = .ok r ∧
      r.returned = toUInt16 (-1) ∧
      times_destroyed r.world.trace Object.driver = 0 ∧
      r.world.trace.count Event.free_properties = 0 ∧
      r.driver._properties ≠ none) := by
  constructor
  · exact ⟨_, rfl, by decide⟩
  · exact ⟨_, rfl, by decide⟩

end Bs2go

/-! ## Checksums: values and the reference of `crc16_t1gd` -/

namespace Bs2go

/-- C12: on the empty byte sequence `crc16_ccitt_x25` returns `0x0000`,
`crc16_mcrf4xx` returns `0xFFFF` and `lrc8` returns `0x00`. -/
theorem checksums_of_empty :
    crc16_ccitt_x25 [] = 0x0000 ∧ crc16_mcrf4xx [] = 0xFFFF ∧ lrc8 [] = 0x00 := by
  decide

/-- C13: on the nine ASCII bytes `"123456789"` `crc16_ccitt_x25` returns the
check value `0x906E` of the CCITT X.25 CRC-16 and `crc16_mcrf4xx` returns
`0x6F91`. -/
theorem crc16_check_values :
    crc16_ccitt_x25 [0x31, 0x32, 0x33, 0x34, 0x35, 0x36, 0x37, 0x38, 0x39] = 0x906E ∧
    crc16_mcrf4xx [0x31, 0x32, 0x33, 0x34, 0x35, 0x36, 0x37, 0x38, 0x39] = 0x6F91 := by
  decide

/-- C14, as stated, fails: on the single byte `0x00` the function `crc16_t1gd`
returns `0x0087`, the reading with the full 17-bit constant `0x0F87`: bit 16
of `0x10810` does not fit the `uint16_t` register, so it never becomes bit 15. -/
theorem crc16_t1gd_loses_bit_16 :
    crc16_t1gd [0x00] = 0x0087 ∧ crc16_t1gd_reference17 [0x00] = 0x0F87 ∧
    crc16_t1gd [0x00] ≠ crc16_t1gd_reference17 [0x00] := by
  decide

end Bs2go

/-! ## Orchestrator and driver state: evaluations -/

namespace Bs2go

/-- C11: evaluation of `se_interface_init` on error statuses that are multiples
of `0x10000`.  When `t1prime_initialize`, or `protocol_activate`, reports the
non-success status `0x10000`, the `uint16_t` that `se_interface_init` returns
is `SUCCESS`. -/
theorem se_interface_init_truncates_status :
    (0x10000 : Int) ≠ exampleHeaders.PROTOCOLLAYER_INITIALIZE_SUCCESS ∧
    (0x10000 : Int) ≠ exampleHeaders.PROTOCOL_ACTIVATE_SUCCESS ∧
    (∃ r, se_interface_init exampleHeaders { InitEnv.allSucceed with t1prime_status := 0x10000 }
        World.initial Protocol.zeroed = .ok r ∧
      r.returned = toUInt16 exampleHeaders.SUCCESS ∧
      destroy_calls r.world.trace Object.driver = 1) ∧
    (∃ r, se_interface_init exampleHeaders { InitEnv.allSucceed with activate_status := 0x10000 }
        World.initial Protocol.zeroed = .ok r ∧
      r.returned = toUInt16 exampleHeaders.SUCCESS ∧
      destroy_calls r.world.trace Object.driver = 1) := by
  refine ⟨by decide, by decide, ⟨_, rfl, by decide⟩, ⟨_, rfl, by decide⟩⟩

/-- C18: evaluation of the driver layer where the reported and the effective
peer address part.  On a fresh driver layer, with `I2C_SLAVE_ADDR` at its
initial value `0`, `i2c_get_slave_address` reports the default `0x50` and
`psoc6_i2c_transmit` then passes `0` to the bus; after
`i2c_set_slave_address (0x51)` and `psoc6_i2c_destroy`, `i2c_get_slave_address`
reports `0x50` again while `I2C_SLAVE_ADDR` is still `0x51`. -/
theorem reported_address_not_bus_address :
    (∃ g, i2c_get_slave_address exampleHeaders true World.initial Protocol.freshDriver [] =
        .ok g ∧
      g.status = exampleHeaders.PROTOCOL_GETPROPERTY_SUCCESS ∧ g.value = some 0x50 ∧
      g.world.I2C_SLAVE_ADDR = 0 ∧
      (psoc6_i2c_transmit exampleHeaders 0 g.world (some g.self) (some [0x00]) 1).2.trace =
        g.world.trace ++ [Event.cyhal_i2c_master_write 0 [0x00]]) ∧
    (∃ s g, i2c_set_slave_address exampleHeaders true World.initial
        (some (Protocol.freshDriver, [])) 0x51 = .ok s ∧
      s.status = exampleHeaders.PROTOCOL_SETPROPERTY_SUCCESS ∧
      i2c_get_slave_address exampleHeaders true
        (psoc6_i2c_destroy s.world (s.chain.map Prod.fst)).1
        (((psoc6_i2c_destroy s.world (s.chain.map Prod.fst)).2).getD Protocol.freshDriver) [] =
        .ok g ∧
      g.value = some 0x50 ∧ g.world.I2C_SLAVE_ADDR = 0x51) := by
  refine ⟨⟨_, rfl, by decide⟩, ⟨_, _, rfl, rfl, rfl, by decide⟩⟩

end Bs2go

/-! ## Checksums: range of `crc16_t1gd`, residue and error detection -/

namespace Bs2go

theorem xor_mod_two_pow (a b n : Nat) : (a ^^^ b) % 2 ^ n = a % 2 ^ n ^^^ b % 2 ^ n := by
  apply Nat.eq_of_testBit_eq
  intro i
  simp only [Nat.testBit_mod_two_pow, Nat.testBit_xor]
  cases decide (i < n) <;> simp

theorem xor_div_two_pow (a b n : Nat) : (a ^^^ b) / 2 ^ n = a / 2 ^ n ^^^ b / 2 ^ n := by
  apply Nat.eq_of_testBit_eq
  intro i
  simp only [← Nat.shiftRight_eq_div_pow, Nat.testBit_shiftRight, Nat.testBit_xor]

theorem crc16_t1gd_xor_lt (k crc : Nat) (hk : 12 ≤ k) (h : crc < 2 ^ k) :
    (crc ^^^ 0x10810) % 2 ^ 16 < 2 ^ k := by
  rw [xor_mod_two_pow]
  refine Nat.xor_lt_two_pow (lt_of_le_of_lt (Nat.mod_le _ _) h) ?_
  calc 0x10810 % 2 ^ 16 < 2 ^ 12 := by norm_num
    _ ≤ 2 ^ k := Nat.pow_le_pow_right (by norm_num) hk

theorem crc16_t1gd_shift_lt (k x : Nat) (hk : 1 ≤ k) (h : x < 2 ^ k) :
    (x >>> 1) % 2 ^ 16 < 2 ^ (k - 1) := by
  refine lt_of_le_of_lt (Nat.mod_le _ _) ?_
  rw [Nat.shiftRight_eq_div_pow, pow_one]
  have hpow : 2 ^ k = 2 * 2 ^ (k - 1) := by
    rw [← pow_succ']
    congr 1
    omega
  omega

theorem crc16_t1gd_bits_lt (n k crc b : Nat) (hk : 11 ≤ k) (h : crc < 2 ^ k) :
    crc16_t1gd_bits n crc b < 2 ^ max (k - n) 11 := by
  induction n generalizing k crc b with
  | zero =>
    have hexp : max (k - 0) 11 = k := by omega
    rw [hexp]
    simpa only [crc16_t1gd_bits] using h
  | succ n ih =>
    unfold crc16_t1gd_bits
    simp only
    have hexp : max (max (k - 1) 11 - n) 11 = max (k - (n + 1)) 11 := by omega
    rw [← hexp]
    apply ih _ _ _ (le_max_right _ _)
    have hwide : crc < 2 ^ max k 12 :=
      lt_of_lt_of_le h (Nat.pow_le_pow_right (by norm_num) (le_max_left _ _))
    have hexp1 : max (k - 1) 11 = max k 12 - 1 := by omega
    rw [hexp1]
    apply crc16_t1gd_shift_lt _ _ (by omega)
    split
    · exact crc16_t1gd_xor_lt _ _ (le_max_right _ _) hwide
    · exact hwide

theorem crc16_t1gd_byte_lt (crc : Nat) (b : Byte) (h : crc < 2 ^ 16) :
    crc16_t1gd_byte crc b < 0x0800 := by
  have h8 := crc16_t1gd_bits_lt 8 16 crc b.val (by norm_num) h
  simpa [crc16_t1gd_byte] using h8

theorem crc16_t1gd_register_lt (data : List Byte) (crc : Nat) (h : crc < 0x0800) :
    data.foldl crc16_t1gd_byte crc < 0x0800 := by
  induction data generalizing crc with
  | nil => simpa using h
  | cons b bs ih => exact ih _ (crc16_t1gd_byte_lt crc b (by omega))

/-- C15: for every non-empty byte sequence `d`, `crc16_t1gd d` is strictly less
than `0x0800`: bits 11 to 15 of the checksum are always zero. -/
theorem crc16_t1gd_lt (d : List Byte) (hd : d ≠ []) : crc16_t1gd d < 0x0800 := by
  cases d with
  | nil => exact absurd rfl hd
  | cons b bs =>
    exact crc16_t1gd_register_lt bs _ (crc16_t1gd_byte_lt 0xffff b (by norm_num))

theorem crc16_t1gd_lt_witness : crc16_t1gd [0xff, 0x00] < 0x0800 :=
  crc16_t1gd_lt [0xff, 0x00] (by decide)

set_option maxRecDepth 100000 in
theorem crc16_residue_high_bytes :
    ∀ h : Fin 256,
      crc16_ccitt_x25_bits 8
        ((crc16_ccitt_x25_bits 8 (256 * h.val + 255) ^^^ (h.val ^^^ 255)) % 2 ^ 16) = 0xF0B8 := by
  decide

theorem xor_mod_256 (a b : Nat) : (a ^^^ b) % 256 = a % 256 ^^^ b % 256 :=
  xor_mod_two_pow a b 8

theorem xor_div_256 (a b : Nat) : (a ^^^ b) / 256 = a / 256 ^^^ b / 256 :=
  xor_div_two_pow a b 8

theorem crc16_trailer_low (s : Nat) (hs : s < 2 ^ 16) :
    (s ^^^ (s ^^^ 0xffff) % 2 ^ 16 % 256) % 2 ^ 16 = 256 * (s / 256) + 255 := by
  have hc : (s ^^^ 0xffff) % 2 ^ 16 % 256 = s % 256 ^^^ 255 := by
    rw [Nat.mod_mod_of_dvd _ (by norm_num : 256 ∣ 2 ^ 16), xor_mod_256]
  have hlt : s % 256 ^^^ 255 < 2 ^ 8 :=
    Nat.xor_lt_two_pow (Nat.mod_lt _ (by norm_num)) (by norm_num)
  have hlow : (s % 256 ^^^ 255) % 256 = s % 256 ^^^ 255 := Nat.mod_eq_of_lt hlt
  have hzero : (s % 256 ^^^ 255) / 256 = 0 := Nat.div_eq_of_lt hlt
  have hmod : (s ^^^ (s % 256 ^^^ 255)) % 256 = 255 := by
    rw [xor_mod_256, hlow, ← Nat.xor_assoc, Nat.xor_self, Nat.zero_xor]
  have hdiv : (s ^^^ (s % 256 ^^^ 255)) / 256 = s / 256 := by
    rw [xor_div_256, hzero, Nat.xor_zero]
  have hsplit := Nat.div_add_mod (s ^^^ (s % 256 ^^^ 255)) 256
  rw [hmod, hdiv] at hsplit
  rw [hc, ← hsplit]
  apply Nat.mod_eq_of_lt
  have : s / 256 < 256 := by omega
  omega

theorem crc16_trailer_high (s : Nat) (hs : s < 2 ^ 16) :
    (s ^^^ 0xffff) % 2 ^ 16 / 256 % 256 = s / 256 ^^^ 255 := by
  have hx : s ^^^ 0xffff < 2 ^ 16 := Nat.xor_lt_two_pow hs (by norm_num)
  rw [Nat.mod_eq_of_lt hx, xor_div_256]
  apply Nat.mod_eq_of_lt
  have : s / 256 < 2 ^ 8 := by omega
  simpa using Nat.xor_lt_two_pow this (by norm_num : 0xffff / 256 < 2 ^ 8)

theorem crc16_residue_state (s : Nat) (hs : s < 2 ^ 16) :
    crc16_ccitt_x25_byte (crc16_ccitt_x25_byte s (lowByte ((s ^^^ 0xffff) % 2 ^ 16)))
      (highByte ((s ^^^ 0xffff) % 2 ^ 16)) = 0xF0B8 := by
  have hh : s / 256 < 256 := by omega
  have hfin := crc16_residue_high_bytes ⟨s / 256, hh⟩
  simp only [crc16_ccitt_x25_byte, lowByte, highByte]
  rw [crc16_trailer_low s hs, crc16_trailer_high s hs]
  exact hfin

/-- C16: CRC trailer self-check.  For every byte sequence `d`, with
`c = crc16_ccitt_x25 d`, `crc16_mcrf4xx` of `d` followed by the bytes
`c mod 256` and `c div 256` is `0xF0B8`, and `crc16_ccitt_x25` of that frame is
`0x0F47`, whatever `d` is. -/
theorem crc16_trailer_residue (d : List Byte) :
    crc16_mcrf4xx (d ++ [lowByte (crc16_ccitt_x25 d), highByte (crc16_ccitt_x25 d)]) = 0xF0B8 ∧
    crc16_ccitt_x25 (d ++ [lowByte (crc16_ccitt_x25 d), highByte (crc16_ccitt_x25 d)]) =
      0x0F47 := by
  have hs : d.foldl crc16_ccitt_x25_byte 0xffff < 2 ^ 16 :=
    crc16_ccitt_x25_register_lt d 0xffff (by norm_num)
  have hstate := crc16_residue_state _ hs
  constructor
  · simp only [crc16_mcrf4xx, crc16_mcrf4xx_byte_eq, crc16_ccitt_x25, List.foldl_append,
      List.foldl_cons, List.foldl_nil]
    exact hstate
  · simp only [crc16_ccitt_x25, List.foldl_append, List.foldl_cons, List.foldl_nil]
    rw [hstate]
    decide

theorem crc16_feedback_ge (a : Nat) (ha : a < 2 ^ 15) : 2 ^ 15 ≤ a ^^^ 0x8408 := by
  by_contra hlt
  have hbit := Nat.testBit_lt_two_pow (Nat.lt_of_not_le hlt)
  rw [Nat.testBit_xor, Nat.testBit_lt_two_pow ha] at hbit
  revert hbit
  decide

theorem crc16_feedback_lt (a : Nat) (ha : a < 2 ^ 15) : a ^^^ 0x8408 < 2 ^ 16 :=
  Nat.xor_lt_two_pow (lt_trans ha (by norm_num)) (by norm_num)

theorem crc16_ccitt_x25_bits_injective (n x y : Nat) (hx : x < 2 ^ 16) (hy : y < 2 ^ 16)
    (h : crc16_ccitt_x25_bits n x = crc16_ccitt_x25_bits n y) : x = y := by
  induction n generalizing x y with
  | zero => simpa [crc16_ccitt_x25_bits] using h
  | succ n ih =>
    have hx2 : x >>> 1 < 2 ^ 15 := by
      rw [Nat.shiftRight_eq_div_pow]; omega
    have hy2 : y >>> 1 < 2 ^ 15 := by
      rw [Nat.shiftRight_eq_div_pow]; omega
    have hxs : x >>> 1 = x / 2 := by rw [Nat.shiftRight_eq_div_pow, pow_one]
    have hys : y >>> 1 = y / 2 := by rw [Nat.shiftRight_eq_div_pow, pow_one]
    have hxf := crc16_feedback_lt _ hx2
    have hyf := crc16_feedback_lt _ hy2
    have hxg := crc16_feedback_ge _ hx2
    have hyg := crc16_feedback_ge _ hy2
    unfold crc16_ccitt_x25_bits at h
    rw [Nat.and_one_is_mod, Nat.and_one_is_mod] at h
    split at h <;> split at h
    · have h1 := ih _ _ (Nat.mod_lt _ (by norm_num)) (Nat.mod_lt _ (by norm_num)) h
      rw [Nat.mod_eq_of_lt hxf, Nat.mod_eq_of_lt hyf] at h1
      have h2 := Nat.xor_left_injective h1
      omega
    · have h1 := ih _ _ (Nat.mod_lt _ (by norm_num)) (Nat.mod_lt _ (by norm_num)) h
      rw [Nat.mod_eq_of_lt hxf, Nat.mod_eq_of_lt (lt_trans hy2 (by norm_num))] at h1
      omega
    · have h1 := ih _ _ (Nat.mod_lt _ (by norm_num)) (Nat.mod_lt _ (by norm_num)) h
      rw [Nat.mod_eq_of_lt hyf, Nat.mod_eq_of_lt (lt_trans hx2 (by norm_num))] at h1
      omega
    · have h1 := ih _ _ (Nat.mod_lt _ (by norm_num)) (Nat.mod_lt _ (by norm_num)) h
      rw [Nat.mod_eq_of_lt (lt_trans hx2 (by norm_num)),
        Nat.mod_eq_of_lt (lt_trans hy2 (by norm_num))] at h1
      omega

theorem crc16_ccitt_x25_byte_injective_state (s t : Nat) (b : Byte) (hs : s < 2 ^ 16)
    (ht : t < 2 ^ 16) (h : crc16_ccitt_x25_byte s b = crc16_ccitt_x25_byte t b) : s = t := by
  have hb : b.val < 2 ^ 16 := lt_trans b.isLt (by norm_num)
  have h1 := crc16_ccitt_x25_bits_injective 8 _ _ (Nat.mod_lt _ (by norm_num))
    (Nat.mod_lt _ (by norm_num)) h
  rw [Nat.mod_eq_of_lt (Nat.xor_lt_two_pow hs hb),
    Nat.mod_eq_of_lt (Nat.xor_lt_two_pow ht hb)] at h1
  exact Nat.xor_left_injective h1

theorem crc16_ccitt_x25_byte_injective_byte (s : Nat) (b c : Byte) (hs : s < 2 ^ 16)
    (h : crc16_ccitt_x25_byte s b = crc16_ccitt_x25_byte s c) : b = c := by
  have hb : b.val < 2 ^ 16 := lt_trans b.isLt (by norm_num)
  have hc : c.val < 2 ^ 16 := lt_trans c.isLt (by norm_num)
  have h1 := crc16_ccitt_x25_bits_injective 8 _ _ (Nat.mod_lt _ (by norm_num))
    (Nat.mod_lt _ (by norm_num)) h
  rw [Nat.mod_eq_of_lt (Nat.xor_lt_two_pow hs hb),
    Nat.mod_eq_of_lt (Nat.xor_lt_two_pow hs hc)] at h1
  exact Fin.ext (Nat.xor_right_injective h1)

theorem crc16_ccitt_x25_register_injective (data : List Byte) (s t : Nat) (hs : s < 2 ^ 16)
    (ht : t < 2 ^ 16)
    (h : data.foldl crc16_ccitt_x25_byte s = data.foldl crc16_ccitt_x25_byte t) : s = t := by
  induction data generalizing s t with
  | nil => simpa using h
  | cons b bs ih =>
    exact crc16_ccitt_x25_byte_injective_state s t b hs ht
      (ih _ _ (crc16_ccitt_x25_byte_lt s b) (crc16_ccitt_x25_byte_lt t b) h)

theorem lrc8_register_injective (data : List Byte) (s t : Nat) (hs : s < 2 ^ 8) (ht : t < 2 ^ 8)
    (h : data.foldl (fun lrc b => (lrc ^^^ b.val) % 2 ^ 8) s =
      data.foldl (fun lrc b => (lrc ^^^ b.val) % 2 ^ 8) t) : s = t := by
  induction data generalizing s t with
  | nil => simpa using h
  | cons b bs ih =>
    have h1 := ih _ _ (Nat.mod_lt _ (by norm_num)) (Nat.mod_lt _ (by norm_num)) h
    rw [Nat.mod_eq_of_lt (Nat.xor_lt_two_pow hs b.isLt),
      Nat.mod_eq_of_lt (Nat.xor_lt_two_pow ht b.isLt)] at h1
    exact Nat.xor_left_injective h1

/-- C17: single-byte corruption is always detected.  Two byte sequences of equal
length that differ in exactly one position, `pre ++ b :: post` and
`pre ++ c :: post` with `b ≠ c`, have different `crc16_ccitt_x25` and different
`lrc8`. -/
theorem single_byte_corruption_detected (pre post : List Byte) (b c : Byte) (hbc : b ≠ c) :
    crc16_ccitt_x25 (pre ++ b :: post) ≠ crc16_ccitt_x25 (pre ++ c :: post) ∧
    lrc8 (pre ++ b :: post) ≠ lrc8 (pre ++ c :: post) := by
  constructor
  · intro h
    have hs : pre.foldl crc16_ccitt_x25_byte 0xffff < 2 ^ 16 :=
      crc16_ccitt_x25_register_lt pre 0xffff (by norm_num)
    simp only [crc16_ccitt_x25, List.foldl_append, List.foldl_cons] at h
    have hb := crc16_ccitt_x25_register_lt post _
      (crc16_ccitt_x25_byte_lt (pre.foldl crc16_ccitt_x25_byte 0xffff) b)
    have hc := crc16_ccitt_x25_register_lt post _
      (crc16_ccitt_x25_byte_lt (pre.foldl crc16_ccitt_x25_byte 0xffff) c)
    rw [Nat.mod_eq_of_lt (Nat.xor_lt_two_pow hb (by norm_num)),
      Nat.mod_eq_of_lt (Nat.xor_lt_two_pow hc (by norm_num))] at h
    have h1 := crc16_ccitt_x25_register_injective post _ _
      (crc16_ccitt_x25_byte_lt _ b) (crc16_ccitt_x25_byte_lt _ c) (Nat.xor_left_injective h)
    exact hbc (crc16_ccitt_x25_byte_injective_byte _ b c hs h1)
  · intro h
    have hs : pre.foldl (fun lrc b => (lrc ^^^ b.val) % 2 ^ 8) 0x00 < 2 ^ 8 :=
      lrc8_register_lt pre 0 (by norm_num)
    simp only [lrc8, List.foldl_append, List.foldl_cons] at h
    have h1 := lrc8_register_injective post _ _ (Nat.mod_lt _ (by norm_num))
      (Nat.mod_lt _ (by norm_num)) h
    rw [Nat.mod_eq_of_lt (Nat.xor_lt_two_pow hs b.isLt),
      Nat.mod_eq_of_lt (Nat.xor_lt_two_pow hs c.isLt)] at h1
    exact hbc (Fin.ext (Nat.xor_right_injective h1))

theorem single_byte_corruption_detected_witness :
    crc16_ccitt_x25 ([0x00, 0x01] ++ 0x02 :: [0x03]) ≠
      crc16_ccitt_x25 ([0x00, 0x01] ++ 0x12 :: [0x03]) ∧
    lrc8 ([0x00, 0x01] ++ 0x02 :: [0x03]) ≠ lrc8 ([0x00, 0x01] ++ 0x12 :: [0x03]) :=
  single_byte_corruption_detected [0x00, 0x01] [0x03] 0x02 0x12 (by decide)

end Bs2go

/-! ## Checksums: `crc16_t1gd` on its 16-bit register -/

namespace Bs2go

theorem crc16_t1gd_bits_eq_reference16 (n crc b : Nat) (hcrc : crc < 2 ^ 16) (hb : b < 2 ^ 8) :
    crc16_t1gd_bits n crc b = crc16_t1gd_reference16_bits n crc b := by
  induction n generalizing crc b with
  | zero => rfl
  | succ n ih =>
    have hcond : ((crc ^^^ b) &&& 0x01 ≠ 0) ↔ (crc % 2 ≠ b % 2) := by
      have hlow : (crc ^^^ b) &&& 0x01 = (crc % 2) ^^^ (b % 2) := by
        rw [Nat.and_one_is_mod]
        exact xor_mod_two_pow crc b 1
      rw [hlow]
      rcases Nat.mod_two_eq_zero_or_one crc with hc | hc <;>
        rcases Nat.mod_two_eq_zero_or_one b with hb2 | hb2 <;> simp [hc, hb2]
    have hxor : (crc ^^^ 0x10810) % 2 ^ 16 = crc ^^^ 0x0810 := by
      rw [xor_mod_two_pow, Nat.mod_eq_of_lt hcrc]
      norm_num
    have hxlt : crc ^^^ 0x0810 < 2 ^ 16 := Nat.xor_lt_two_pow hcrc (by norm_num)
    have hbs : (b >>> 1) % 2 ^ 8 = b / 2 := by
      rw [Nat.shiftRight_eq_div_pow, pow_one]
      exact Nat.mod_eq_of_lt (by omega)
    have hshift : ∀ x, x < 2 ^ 16 → (x >>> 1) % 2 ^ 16 = x / 2 := by
      intro x hx
      rw [Nat.shiftRight_eq_div_pow, pow_one]
      exact Nat.mod_eq_of_lt (by omega)
    unfold crc16_t1gd_bits crc16_t1gd_reference16_bits
    by_cases hne : crc % 2 ≠ b % 2
    · have hcode : (crc ^^^ b) &&& 0x01 ≠ 0 := hcond.mpr hne
      simp only [hcode, hne, if_true, ne_eq, not_false_eq_true, hxor, hbs, hshift _ hxlt]
      exact ih ((crc ^^^ 0x0810) / 2) (b / 2) (by omega) (by omega)
    · have hcode : ¬ ((crc ^^^ b) &&& 0x01 ≠ 0) := fun h => hne (hcond.mp h)
      simp only [hcode, hne, if_false, hbs, hshift _ hcrc]
      exact ih (crc / 2) (b / 2) (by omega) (by omega)

theorem crc16_t1gd_bits_lt_two_pow (n crc b : Nat) (hcrc : crc < 2 ^ 16) :
    crc16_t1gd_bits n crc b < 2 ^ 16 := by
  cases n with
  | zero => simpa [crc16_t1gd_bits] using hcrc
  | succ n =>
    have h := crc16_t1gd_bits_lt (n + 1) 16 crc b (by norm_num) hcrc
    exact lt_of_lt_of_le h (Nat.pow_le_pow_right (by norm_num) (by omega))

theorem crc16_t1gd_fold_eq_reference16 (d : List Byte) (crc : Nat) (hcrc : crc < 2 ^ 16) :
    d.foldl crc16_t1gd_byte crc =
      d.foldl (fun register b => crc16_t1gd_reference16_bits 8 register b.val) crc := by
  induction d generalizing crc with
  | nil => rfl
  | cons b bs ih =>
    simp only [List.foldl_cons]
    rw [← crc16_t1gd_bits_eq_reference16 8 crc b.val hcrc b.isLt]
    exact ih _ (crc16_t1gd_bits_lt_two_pow 8 crc b.val hcrc)

/-- C14, amended: for every byte sequence `crc16_t1gd` returns the value of the
reference on a 16-bit register: register initialised to `0xFFFF`; for each
byte in order, 8 times: if the low bit of the register differs from the low
bit of the remaining byte, XOR the register with `0x0810`, the 16 bits that
the register takes of `0x10810`; then shift the register and the remaining
byte right by one bit; no final XOR. -/
theorem crc16_t1gd_eq_reference16 (d : List Byte) :
    crc16_t1gd d = crc16_t1gd_reference16 d :=
  crc16_t1gd_fold_eq_reference16 d 0xffff (by norm_num)

end Bs2go
